import Mathlib

/-!
Verification development for the tableau-combo-chart-react extension.

The JavaScript sources are shallowly embedded as executable Lean
definitions: machine floats become exact rationals, JavaScript values
that may be numbers, strings, null or undefined become the inductive
type JsVal, and fallible host calls become Option.  Each definition
carries a reference to the source location it embeds.
-/

namespace ComboChartSpec

set_option maxRecDepth 16000

/-- A JavaScript primitive value as it appears in the data rows and the
formatter inputs: a (finite) number, a string, null, or undefined. -/
inductive JsVal where
  | num (q : ℚ)
  | str (s : String)
  | nullv
  | undef
deriving DecidableEq, Repr

/-- Decimal digit characters of a natural number (uses the standard
decimal representation). -/
def natDigits (n : ℕ) : String := Nat.repr n

/-- Left-pad a digit string with zeros up to width k. -/
def padZeros (s : String) (k : ℕ) : String :=
  if s.length ≥ k then s else String.mk (List.replicate (k - s.length) '0') ++ s

/-- Insert a comma every three digits from the right, as the d3 comma
grouping does for the integer part of a number. -/
def groupThousands (n : ℕ) : String :=
  let ds := (natDigits n).toList.reverse
  String.mk ((ds.enum.flatMap (fun p =>
    if p.1 ≠ 0 ∧ p.1 % 3 = 0 then [',', p.2] else [p.2])).reverse)

/-- Fixed-point rendering of a non-negative rational with dec decimal
places, rounding half away from zero, optionally comma-grouped; models
the d3 f-type formatting of a non-negative finite float. -/
def fixedFmtCore (comma : Bool) (dec : ℕ) (q : ℚ) : String :=
  let scaled : ℤ := ⌊q * (10 : ℚ) ^ dec + 1/2⌋
  let n : ℕ := scaled.toNat
  let ip := n / 10 ^ dec
  let fp := n % 10 ^ dec
  let ipStr := if comma then groupThousands ip else natDigits ip
  if dec = 0 then ipStr else ipStr ++ "." ++ padZeros (natDigits fp) dec

/-- Fixed-point rendering with a sign, comma option and dec decimals. -/
def fixedFmt (comma : Bool) (dec : ℕ) (q : ℚ) : String :=
  if q < 0 then "-" ++ fixedFmtCore comma dec (-q) else fixedFmtCore comma dec q

/-- Decimal expansion of a rational in [0, 1), cut off after the given
number of digits (finite floats always terminate well within 20). -/
def fracDigits : ℕ → ℚ → String
  | 0, _ => ""
  | fuel + 1, q =>
    if q = 0 then ""
    else
      let d : ℤ := ⌊q * 10⌋
      natDigits d.toNat ++ fracDigits fuel (q * 10 - (d : ℚ))

/-- Default (type-less) d3 number rendering: shortest decimal form with
optional comma grouping of the integer part. -/
def defaultNumFmt (comma : Bool) (q : ℚ) : String :=
  let sign := if q < 0 then "-" else ""
  let a := |q|
  let ip : ℕ := (⌊a⌋).toNat
  let ipStr := if comma then groupThousands ip else natDigits ip
  let fr := a - (ip : ℚ)
  sign ++ ipStr ++ (if fr = 0 then "" else "." ++ fracDigits 20 fr)

/-- Normalize a rational q ≥ 10 down into [1, 10), returning the
mantissa and the exponent (fueled loop; exponents of finite floats are
below 400). -/
def sciNormUp : ℕ → ℚ → ℚ × ℤ
  | 0, q => (q, 0)
  | fuel + 1, q =>
    if q ≥ 10 then
      let p := sciNormUp fuel (q / 10)
      (p.1, p.2 + 1)
    else (q, 0)

/-- Normalize a rational 0 < q < 1 up into [1, 10), returning the
mantissa and the (negative) exponent. -/
def sciNormDown : ℕ → ℚ → ℚ × ℤ
  | 0, q => (q, 0)
  | fuel + 1, q =>
    if q < 1 then
      let p := sciNormDown fuel (q * 10)
      (p.1, p.2 - 1)
    else (q, 0)

/-- Scientific (e-type) rendering of a rational, modelling the d3
e-type with the given precision. -/
def sciFmt (dec : ℕ) (q : ℚ) : String :=
  if q = 0 then fixedFmtCore false dec 0 ++ "e+0"
  else
    let sign := if q < 0 then "-" else ""
    let a := |q|
    let p := if a ≥ 10 then sciNormUp 400 a
             else if a < 1 then sciNormDown 400 a
             else (a, 0)
    let expStr := if p.2 < 0 then "-" ++ natDigits (-p.2).toNat
                  else "+" ++ natDigits p.2.toNat
    sign ++ fixedFmtCore false dec p.1 ++ "e" ++ expStr

/-- A parsed d3 number-format specifier, restricted to the grammar
subset the extension uses and users can meaningfully supply:
an optional comma flag, an optional precision, and a type letter. -/
structure D3NumSpec where
  comma : Bool
  precision : ℕ
  ftype : String
deriving DecidableEq, Repr

/-- Consume leading decimal digit characters, returning their value,
how many there were, and the remaining characters. -/
def consumeDigits : List Char → ℕ → ℕ → ℕ × ℕ × List Char
  | [], acc, cnt => (acc, cnt, [])
  | c :: cs, acc, cnt =>
    if c.isDigit then consumeDigits cs (acc * 10 + (c.toNat - '0'.toNat)) (cnt + 1)
    else (acc, cnt, c :: cs)

/-- Model of the d3.format specifier parser on the supported subset:
returns none exactly where d3.format would throw (an invalid
specifier).  Accepted: optional comma, optional .precision, then a
single type letter among f, e, %, d, or no type letter. -/
def parseD3NumSpec (s : String) : Option D3NumSpec :=
  let cs := s.toList
  let (comma, cs1) := match cs with
    | ',' :: rest => (true, rest)
    | _ => (false, cs)
  match cs1 with
  | '.' :: rest =>
    let (prec, cnt, rest2) := consumeDigits rest 0 0
    if cnt = 0 then none
    else
      match rest2 with
      | [] => some ⟨comma, prec, ""⟩
      | [t] =>
        if t = 'f' ∨ t = 'e' ∨ t = '%' ∨ t = 'd' then some ⟨comma, prec, String.mk [t]⟩
        else none
      | _ => none
  | [] => some ⟨comma, 6, ""⟩
  | [t] =>
    if t = 'f' ∨ t = 'e' ∨ t = '%' ∨ t = 'd' then some ⟨comma, 6, String.mk [t]⟩
    else none
  | _ => none

/-- Apply a parsed d3 number specifier to a rational. -/
def applyD3NumSpec (sp : D3NumSpec) (q : ℚ) : String :=
  if sp.ftype = "f" then fixedFmt sp.comma sp.precision q
  else if sp.ftype = "e" then sciFmt sp.precision q
  else if sp.ftype = "%" then fixedFmt sp.comma sp.precision (q * 100) ++ "%"
  else if sp.ftype = "d" then fixedFmt sp.comma 0 q
  else defaultNumFmt sp.comma q

/-- Model of d3.format: none models the thrown exception on an invalid
specifier, some f a formatter function. -/
def d3Format (s : String) : Option (ℚ → String) :=
  (parseD3NumSpec s).map applyD3NumSpec

/-- Model of d3.format applied to a possibly-NaN number (none = NaN);
d3 renders NaN as the string NaN. -/
def d3FormatOpt (sp : D3NumSpec) : Option ℚ → String
  | none => "NaN"
  | some q => applyD3NumSpec sp q

/-! JavaScript coercions. An Option rational stands for a number that
may be NaN (none); comparisons against NaN are false, as in JS. -/

/-- Model of the JS String() coercion on primitive values. -/
def jsToString : JsVal → String
  | .num q => defaultNumFmt false q
  | .str s => s
  | .nullv => "null"
  | .undef => "undefined"

/-- Parse the whole character list as an unsigned decimal number. -/
def parseUnsignedDec (cs : List Char) : Option ℚ :=
  let p := consumeDigits cs 0 0
  match p.2.2 with
  | [] => if p.2.1 = 0 then none else some (p.1 : ℚ)
  | '.' :: rest2 =>
    let p2 := consumeDigits rest2 0 0
    if p2.2.2 = [] ∧ (p.2.1 ≠ 0 ∨ p2.2.1 ≠ 0) then
      some ((p.1 : ℚ) + (p2.1 : ℚ) / (10 : ℚ) ^ p2.2.1)
    else none
  | _ => none

/-- Model of the JS ToNumber coercion of a string (full-string parse,
empty or blank string gives 0, unparseable gives NaN = none). -/
def jsStringToNumber (s : String) : Option ℚ :=
  let t := s.trim
  if t = "" then some 0
  else
    match t.toList with
    | '-' :: cs => (parseUnsignedDec cs).map Neg.neg
    | '+' :: cs => parseUnsignedDec cs
    | cs => parseUnsignedDec cs

/-- Model of the JS ToNumber coercion (used by Math.abs, division and
comparisons inside the formatters); none models NaN. -/
def jsToNumber : JsVal → Option ℚ
  | .num q => some q
  | .str s => jsStringToNumber s
  | .nullv => some 0
  | .undef => none

/-- Parse the longest numeric prefix of the character list. -/
def parsePrefixDec (cs : List Char) : Option ℚ :=
  let p := consumeDigits cs 0 0
  match p.2.2 with
  | '.' :: rest2 =>
    let p2 := consumeDigits rest2 0 0
    if p.2.1 = 0 ∧ p2.2.1 = 0 then none
    else some ((p.1 : ℚ) + (p2.1 : ℚ) / (10 : ℚ) ^ p2.2.1)
  | _ => if p.2.1 = 0 then none else some (p.1 : ℚ)

/-- Model of JS parseFloat on a primitive value (longest numeric
prefix after trimming; none models NaN). -/
def jsParseFloat : JsVal → Option ℚ
  | .num q => some q
  | .str s =>
    (match s.trim.toList with
     | '-' :: cs => (parsePrefixDec cs).map Neg.neg
     | '+' :: cs => parsePrefixDec cs
     | cs => parsePrefixDec cs)
  | .nullv => none
  | .undef => none

/-- Comparison of a possibly-NaN number against a constant: q ≥ c,
false for NaN (as in JS). -/
def jsGE (o : Option ℚ) (c : ℚ) : Bool :=
  match o with
  | some q => decide (q ≥ c)
  | none => false

/-- Comparison of a possibly-NaN number against a constant: q < c,
false for NaN (as in JS). -/
def jsLT (o : Option ℚ) (c : ℚ) : Bool :=
  match o with
  | some q => decide (q < c)
  | none => false

/-! Date model. JS Date values are milliseconds since the Unix epoch;
calendar fields are derived with the standard civil-from-days
algorithm. The source reads local-time fields; the model uses UTC
(the distinction never matters for the verified properties). -/

/-- Calendar date (year, month 1-12, day 1-31) from days since
1970-01-01. Lean integer division is floor division, so no negative
adjustment is needed. -/
def civilFromDays (z0 : ℤ) : ℤ × ℕ × ℕ :=
  let z := z0 + 719468
  let era : ℤ := z / 146097
  let doe : ℤ := z - era * 146097
  let yoe : ℤ := (doe - doe / 1460 + doe / 36524 - doe / 146096) / 365
  let y : ℤ := yoe + era * 400
  let doy : ℤ := doe - (365 * yoe + yoe / 4 - yoe / 100)
  let mp : ℤ := (5 * doy + 2) / 153
  let d : ℤ := doy - (153 * mp + 2) / 5 + 1
  let m : ℤ := if mp < 10 then mp + 3 else mp - 9
  (if m ≤ 2 then y + 1 else y, m.toNat, d.toNat)

/-- Days since 1970-01-01 from a calendar date. -/
def daysFromCivil (y0 : ℤ) (m d : ℕ) : ℤ :=
  let y := if m ≤ 2 then y0 - 1 else y0
  let era : ℤ := y / 400
  let yoe : ℤ := y - era * 400
  let mp : ℤ := if (m : ℤ) > 2 then (m : ℤ) - 3 else (m : ℤ) + 9
  let doy : ℤ := (153 * mp + 2) / 5 + (d : ℤ) - 1
  let doe : ℤ := yoe * 365 + yoe / 4 - yoe / 100 + doy
  era * 146097 + doe - 719468

/-- Broken-down date and time fields of a Date value. -/
structure DateParts where
  year : ℤ
  month : ℕ
  day : ℕ
  dow : ℕ
  hour : ℕ
  minute : ℕ
  second : ℕ
deriving DecidableEq, Repr

/-- Extract calendar and clock fields from a millisecond timestamp. -/
def msToDateParts (ms : ℚ) : DateParts :=
  let totalMs : ℤ := ⌊ms⌋
  let days : ℤ := totalMs / 86400000
  let msOfDay : ℤ := totalMs - days * 86400000
  let c := civilFromDays days
  { year := c.1, month := c.2.1, day := c.2.2
    dow := (((days + 4) % 7 + 7) % 7).toNat
    hour := (msOfDay / 3600000).toNat
    minute := (msOfDay / 60000 % 60).toNat
    second := (msOfDay / 1000 % 60).toNat }

/-- Full English month name (1-based). -/
def monthNameFull (m : ℕ) : String :=
  (["January", "February", "March", "April", "May", "June", "July",
    "August", "September", "October", "November", "December"].getD (m - 1) "")

/-- Abbreviated English month name (1-based). -/
def monthNameAbbr (m : ℕ) : String :=
  (["Jan", "Feb", "Mar", "Apr", "May", "Jun", "Jul",
    "Aug", "Sep", "Oct", "Nov", "Dec"].getD (m - 1) "")

/-- Full English weekday name (0 = Sunday). -/
def weekdayFull (d : ℕ) : String :=
  (["Sunday", "Monday", "Tuesday", "Wednesday", "Thursday", "Friday",
    "Saturday"].getD d "")

/-- Abbreviated English weekday name (0 = Sunday). -/
def weekdayAbbr (d : ℕ) : String :=
  (["Sun", "Mon", "Tue", "Wed", "Thu", "Fri", "Sat"].getD d "")

/-- Two-digit zero-padded rendering of a natural number. -/
def twoDigit (n : ℕ) : String := padZeros (natDigits n) 2

/-- Rendering of a (possibly negative) year. -/
def yearStr (y : ℤ) : String :=
  if y < 0 then "-" ++ natDigits (-y).toNat else natDigits y.toNat

/-- One zero-padded d3 time-format directive. -/
def timeTok (dp : DateParts) (c : Char) : String :=
  if c = 'Y' then yearStr dp.year
  else if c = 'y' then twoDigit ((dp.year % 100).toNat)
  else if c = 'm' then twoDigit dp.month
  else if c = 'd' then twoDigit dp.day
  else if c = 'B' then monthNameFull dp.month
  else if c = 'b' then monthNameAbbr dp.month
  else if c = 'A' then weekdayFull dp.dow
  else if c = 'a' then weekdayAbbr dp.dow
  else if c = 'H' then twoDigit dp.hour
  else if c = 'I' then twoDigit (if dp.hour % 12 = 0 then 12 else dp.hour % 12)
  else if c = 'M' then twoDigit dp.minute
  else if c = 'S' then twoDigit dp.second
  else if c = 'p' then (if dp.hour ≥ 12 then "PM" else "AM")
  else if c = '%' then "%"
  else String.mk ['%', c]

/-- One non-padded (dash-modified) d3 time-format directive. -/
def timeTokNoPad (dp : DateParts) (c : Char) : String :=
  if c = 'm' then natDigits dp.month
  else if c = 'd' then natDigits dp.day
  else if c = 'H' then natDigits dp.hour
  else if c = 'I' then natDigits (if dp.hour % 12 = 0 then 12 else dp.hour % 12)
  else if c = 'M' then natDigits dp.minute
  else if c = 'S' then natDigits dp.second
  else timeTok dp c

/-- Apply a d3 time-format pattern to date parts (model of
d3.timeFormat, restricted to the directives the extension emits). -/
def applyTimeFmt (dp : DateParts) : List Char → String
  | [] => ""
  | '%' :: '-' :: c :: rest => timeTokNoPad dp c ++ applyTimeFmt dp rest
  | '%' :: c :: rest => timeTok dp c ++ applyTimeFmt dp rest
  | '%' :: [] => "%"
  | c :: rest => String.mk [c] ++ applyTimeFmt dp rest

/-- Model of d3.timeFormat applied to date parts. -/
def d3TimeFormat (fmt : String) (dp : DateParts) : String :=
  applyTimeFmt dp fmt.toList

/-- Token map from Tableau and Excel style date tokens to d3
directives, in the order the source tries them (longest first);
src/src/utils/formatters.js lines 36-55. -/
def tableauDateTokens : List (String × String) :=
  [("MMMM", "%B"), ("MMM", "%b"), ("MM", "%m"), ("M", "%-m"),
   ("dddd", "%A"), ("ddd", "%a"), ("dd", "%d"), ("d", "%-d"),
   ("YYYY", "%Y"), ("yyyy", "%Y"), ("YY", "%y"), ("yy", "%y"),
   ("HH", "%H"), ("hh", "%I"), ("mm", "%M"), ("ss", "%S"),
   ("tt", "%p"), ("a", "%p")]

/-- The token-translation loop of toD3DateFormat (fueled by the input
length; each step consumes at least one character). -/
def toD3DateFormatAux : ℕ → List Char → String
  | 0, _ => ""
  | _, [] => ""
  | fuel + 1, c :: rest =>
    match tableauDateTokens.find? (fun p => p.1.toList.isPrefixOf (c :: rest)) with
    | some p => p.2 ++ toD3DateFormatAux fuel ((c :: rest).drop p.1.length)
    | none => String.mk [c] ++ toD3DateFormatAux fuel rest

/-- Convert Tableau/Excel style date tokens to d3 directives; a string
already containing a percent sign is passed through unchanged
(src/src/utils/formatters.js lines 33-75). -/
def toD3DateFormat (fmt : String) : String :=
  if fmt = "" ∨ fmt.toList.contains '%' then fmt
  else toD3DateFormatAux fmt.toList.length fmt.toList

/-- Model of host Date parsing of a string: ISO yyyy-mm-dd dates parse
to their midnight timestamp, anything else is an invalid date. -/
def parseIsoDate (s : String) : Option ℚ :=
  match s.splitOn "-" with
  | [y, m, d] =>
    (match y.toNat?, m.toNat?, d.toNat? with
     | some yn, some mn, some dn =>
       if y.length = 4 ∧ 1 ≤ mn ∧ mn ≤ 12 ∧ 1 ≤ dn ∧ dn ≤ 31 then
         some ((daysFromCivil (yn : ℤ) mn dn : ℤ) * 86400000 : ℤ)
       else none
     | _, _, _ => none)
  | _ => none

/-- Model of the JS Date constructor: a number is a millisecond
timestamp, a parseable date string gives its timestamp, anything else
is an invalid date (none, so that getTime() is NaN). -/
def jsNewDate : JsVal → Option ℚ
  | .num q => some q
  | .str s => parseIsoDate s
  | .nullv => some 0
  | .undef => none

/-! Embedding of src/src/utils/formatters.js. -/

/-- Format options as produced by getFormatOpts
(src/src/utils/formatters.js lines 13-26).  The source keys named
prefix and suffix are called prefixText and suffixText here. -/
structure FormatOpts where
  format : String
  decimals : ℕ
  currencySymbol : String
  currencyPosition : String
  negativeStyle : String
  displayUnits : String
  prefixText : String
  suffixText : String
  thousandsSep : Bool
  customFormat : String
  dateFormat : String
  customDateFormat : String
deriving DecidableEq, Repr

/-- The raw per-element configuration keys read by getFormatOpts under
a given key prefix; none models an absent key. -/
structure PrefixRaw where
  format : Option String := none
  decimals : Option ℕ := none
  currencySymbol : Option String := none
  currencyPosition : Option String := none
  negativeStyle : Option String := none
  displayUnits : Option String := none
  prefixText : Option String := none
  suffixText : Option String := none
  thousandsSep : Option Bool := none
  customFormat : Option String := none
  dateFormat : Option String := none
  customDateFormat : Option String := none
deriving DecidableEq, Repr

/-- JS defaulting with the logical-or operator: an absent or empty
string falls back to the default. -/
def jsOrStr (o : Option String) (d : String) : String :=
  match o with
  | some s => if s = "" then d else s
  | none => d

/-- Embedding of getFormatOpts (src/src/utils/formatters.js lines
13-26): applies the source defaulting to the raw keys of one prefix.
Absent numeric keys use the nullish-coalescing default, string keys
the logical-or default, and thousandsSep defaults to true unless the
stored value is exactly false. -/
def getFormatOpts (raw : PrefixRaw) : FormatOpts :=
  { format := jsOrStr raw.format "auto"
    decimals := raw.decimals.getD 0
    currencySymbol := jsOrStr raw.currencySymbol "$"
    currencyPosition := jsOrStr raw.currencyPosition "prefix"
    negativeStyle := jsOrStr raw.negativeStyle "minus"
    displayUnits := jsOrStr raw.displayUnits "none"
    prefixText := jsOrStr raw.prefixText ""
    suffixText := jsOrStr raw.suffixText ""
    thousandsSep := raw.thousandsSep ≠ some false
    customFormat := jsOrStr raw.customFormat ""
    dateFormat := jsOrStr raw.dateFormat "shortDate"
    customDateFormat := jsOrStr raw.customDateFormat "" }

/-- Embedding of buildDateFormatter (src/src/utils/formatters.js lines
80-120): formats a value as a date, falling back to String(value) when
the value does not parse as a date. -/
def buildDateFormatter (dateFormat customDateFormat : String) : JsVal → String :=
  fun value =>
    match jsNewDate value with
    | none => jsToString value
    | some ms =>
      let dp := msToDateParts ms
      if dateFormat = "longDate" then
        weekdayFull dp.dow ++ ", " ++ monthNameFull dp.month ++ " " ++
          natDigits dp.day ++ ", " ++ yearStr dp.year
      else if dateFormat = "shortDate" then d3TimeFormat "%-m/%-d/%Y" dp
      else if dateFormat = "ddMMyyyy" then d3TimeFormat "%d/%m/%Y" dp
      else if dateFormat = "isoDate" then d3TimeFormat "%Y-%m-%d" dp
      else if dateFormat = "monthYear" then d3TimeFormat "%B %Y" dp
      else if dateFormat = "abbrevDate" then d3TimeFormat "%b %-d, %Y" dp
      else if dateFormat = "yearQuarter" then
        yearStr dp.year ++ " Q" ++ natDigits ((dp.month + 2) / 3)
      else if dateFormat = "yearWeek" then
        let jan1Days := daysFromCivil dp.year 1 1
        let days := daysFromCivil dp.year dp.month dp.day - jan1Days
        let jan1Dow : ℤ := ((jan1Days + 4) % 7 + 7) % 7
        let week : ℤ := (days + jan1Dow + 1 + 6) / 7
        yearStr dp.year ++ " W" ++ padZeros (natDigits week.toNat) 2
      else if dateFormat = "custom" then
        let f := toD3DateFormat customDateFormat
        d3TimeFormat (if f = "" then "%Y-%m-%d" else f) dp
      else d3TimeFormat "%-m/%-d/%Y" dp

/-- Embedding of buildCompactFormatter (src/src/utils/formatters.js
lines 125-144): legacy automatic K/M/B scaling by magnitude. -/
def buildCompactFormatter (decimals : ℕ) (prefixText suffixText negativeStyle : String) :
    JsVal → String :=
  fun vj =>
    let v := jsToNumber vj
    let a := v.map abs
    let su : Option ℚ × String :=
      if jsGE a 1000000000 then (v.map (· / 1000000000), "B")
      else if jsGE a 1000000 then (v.map (· / 1000000), "M")
      else if jsGE a 1000 then (v.map (· / 1000), "K")
      else (v, "")
    let formatted :=
      if su.2 ≠ "" then d3FormatOpt ⟨false, decimals, "f"⟩ (su.1.map abs)
      else d3FormatOpt ⟨true, decimals, "f"⟩ (su.1.map abs)
    let isNeg := jsLT v 0
    if isNeg ∧ negativeStyle = "parens" then
      "(" ++ prefixText ++ formatted ++ su.2 ++ suffixText ++ ")"
    else
      (if isNeg then "-" else "") ++ prefixText ++ formatted ++ su.2 ++ suffixText

/-- Display scaling unit: a divisor and a unit suffix. -/
structure UnitConfig where
  divisor : ℚ
  unitSuffix : String
deriving DecidableEq, Repr

/-- UNIT_CONFIG.none of the source. -/
def unitNone : UnitConfig := ⟨1, ""⟩

/-- UNIT_CONFIG.thousands of the source. -/
def unitThousands : UnitConfig := ⟨1000, "K"⟩

/-- UNIT_CONFIG.millions of the source. -/
def unitMillions : UnitConfig := ⟨1000000, "M"⟩

/-- UNIT_CONFIG.billions of the source. -/
def unitBillions : UnitConfig := ⟨1000000000, "B"⟩

/-- UNIT_CONFIG lookup with the source fallback to none
(src/src/utils/formatters.js lines 149-154 and 222). -/
def unitConfigFor (displayUnits : String) : UnitConfig :=
  if displayUnits = "thousands" then unitThousands
  else if displayUnits = "millions" then unitMillions
  else if displayUnits = "billions" then unitBillions
  else unitNone

/-- Embedding of getFormatter (src/src/utils/formatters.js lines
161-249): none models the returned null (caller uses its default
formatter), some f a formatter closure. -/
def getFormatter (opts : FormatOpts) : Option (JsVal → String) :=
  if opts.format = "" ∨ opts.format = "auto" then none
  else if opts.format = "date" then
    some (buildDateFormatter opts.dateFormat opts.customDateFormat)
  else if opts.format = "compact" then
    some (buildCompactFormatter opts.decimals opts.prefixText opts.suffixText
      opts.negativeStyle)
  else if opts.format = "custom" ∧ opts.customFormat ≠ "" then
    match d3Format opts.customFormat with
    | some d3Fmt =>
      some (fun vj =>
        let v := jsToNumber vj
        let formatted := match v.map abs with
          | some q => d3Fmt q
          | none => "NaN"
        let isNeg := jsLT v 0
        if isNeg ∧ opts.negativeStyle = "parens" then
          "(" ++ opts.prefixText ++ formatted ++ opts.suffixText ++ ")"
        else
          (if isNeg then "-" else "") ++ opts.prefixText ++ formatted ++ opts.suffixText)
    | none => some (fun vj => opts.prefixText ++ jsToString vj ++ opts.suffixText)
  else
    let sep := opts.thousandsSep
    let coreSpec : Option D3NumSpec :=
      if opts.format = "number" then some ⟨sep, opts.decimals, "f"⟩
      else if opts.format = "currency" then some ⟨sep, opts.decimals, "f"⟩
      else if opts.format = "scientific" then some ⟨false, opts.decimals, "e"⟩
      else if opts.format = "percent" then some ⟨false, opts.decimals, "%"⟩
      else none
    match coreSpec with
    | none => none
    | some spec =>
      let isAutoUnits := opts.displayUnits = "auto"
      let fixedUnit := unitConfigFor opts.displayUnits
      some (fun vj =>
        let v := jsToNumber vj
        let a := v.map abs
        let unit :=
          if ¬isAutoUnits then fixedUnit
          else if jsGE a 1000000000 then unitBillions
          else if jsGE a 1000000 then unitMillions
          else if jsGE a 1000 then unitThousands
          else unitNone
        let scaled := if opts.format = "percent" then v else v.map (· / unit.divisor)
        let formatted := d3FormatOpt spec (scaled.map abs)
        let unitSuf := if opts.format = "percent" then "" else unit.unitSuffix
        let isNeg := jsLT v 0
        let currBefore :=
          if opts.format = "currency" ∧ opts.currencyPosition = "prefix" then
            opts.currencySymbol
          else ""
        let currAfter :=
          if opts.format = "currency" ∧ opts.currencyPosition = "suffix" then
            opts.currencySymbol
          else ""
        if isNeg ∧ opts.negativeStyle = "parens" then
          "(" ++ opts.prefixText ++ currBefore ++ formatted ++ unitSuf ++ currAfter ++
            opts.suffixText ++ ")"
        else
          (if isNeg then "-" else "") ++ opts.prefixText ++ currBefore ++ formatted ++
            unitSuf ++ currAfter ++ opts.suffixText)

/-! Embedding of src/src/utils/displayNames.js. -/

/-- Aggregation function names stripped by cleanFieldName
(src/src/utils/displayNames.js line 13). -/
def aggFunctionNames : List String :=
  ["SUM", "AVG", "MIN", "MAX", "COUNT", "AGG", "MEDIAN", "STDEV", "VAR", "ATTR"]

/-- Embedding of cleanFieldName (src/src/utils/displayNames.js lines
11-14): strips a whole-string, case-insensitive aggregation wrapper
AGG(inner) with a non-empty inner, then trims; a non-matching name is
returned trimmed unchanged. -/
def cleanFieldName (name : String) : String :=
  if name = "" then ""
  else
    match aggFunctionNames.find? (fun tok =>
        name.toUpper.startsWith (tok ++ "(") && name.endsWith ")" &&
        decide (name.length > tok.length + 2)) with
    | some tok => ((name.drop (tok.length + 1)).dropRight 1).trim
    | none => name.trim

/-- The four resolved data-mapping field names, as built by
getFieldNames (src/src/utils/displayNames.js lines 46-53). -/
structure FieldNames where
  dimension : String
  bar1 : String
  bar2 : String
  line : String
deriving DecidableEq, Repr

/-- The mapped field name selected by getDisplayName for a role
(src/src/utils/displayNames.js lines 21-24). -/
def fieldNameFor (ttype : String) (fieldNames : FieldNames) : String :=
  if ttype = "bar1" then fieldNames.bar1
  else if ttype = "bar2" then fieldNames.bar2
  else if ttype = "line" then fieldNames.line
  else fieldNames.dimension

/-- The chart configuration: the subset of the ~150 options of
src/src/hooks/useTableauExtension.js (Config.current, lines 450-652)
that the verified components read, with the source defaults.  Absent
keys always resolve to these defaults.  Purely cosmetic typography
options that no verified property depends on are elided. -/
structure Config where
  dimension : String := ""
  bar1Measure : String := ""
  bar2Measure : String := ""
  lineMeasure : String := ""
  xAxisSort : String := "default"
  barStyle : String := "grouped"
  bar1Color : String := "#4e79a7"
  bar1Opacity : ℚ := 1
  bar1ShowBorder : Bool := true
  bar1BorderColor : String := "#3a5f80"
  bar1BorderWidth : ℚ := 1
  bar1CornerRadius : ℚ := 2
  bar2Color : String := "#f28e2c"
  bar2Opacity : ℚ := 1
  bar2ShowBorder : Bool := true
  bar2BorderColor : String := "#c47223"
  bar2BorderWidth : ℚ := 1
  bar2CornerRadius : ℚ := 2
  lineColor : String := "#e15759"
  lineOpacity : ℚ := 1
  lineWidth : ℚ := 2
  lineStyle : String := "solid"
  lineCurve : String := "linear"
  showPoints : Bool := true
  pointSize : ℚ := 5
  pointShape : String := "circle"
  pointFill : String := "#e15759"
  pointStroke : String := "#ffffff"
  pointStrokeWidth : ℚ := 1
  animationEnabled : Bool := true
  animationDuration : ℚ := 500
  animationEasing : String := "easeCubicOut"
  axisMode : String := "dual"
  syncDualAxis : Bool := false
  xAxisShow : Bool := true
  xAxisTitle : String := ""
  xAxisShowTitle : Bool := true
  yAxisLeftShow : Bool := true
  yAxisLeftTitle : String := ""
  yAxisLeftShowTitle : Bool := true
  yAxisLeftMin : Option ℚ := none
  yAxisLeftMax : Option ℚ := none
  yAxisLeftIncludeZero : Bool := true
  yAxisRightShow : Bool := true
  yAxisRightTitle : String := ""
  yAxisRightShowTitle : Bool := true
  gridHorizontal : Bool := true
  gridVertical : Bool := false
  gridColor : String := "#e0e0e0"
  gridOpacity : ℚ := 1/2
  bar1LabelsShow : Bool := false
  bar1LabelsPosition : String := "top"
  bar1LabelsOffsetX : ℚ := 0
  bar1LabelsOffsetY : ℚ := 0
  bar1Labels : PrefixRaw := {}
  bar2LabelsShow : Bool := false
  bar2LabelsPosition : String := "top"
  bar2LabelsOffsetX : ℚ := 0
  bar2LabelsOffsetY : ℚ := 0
  bar2Labels : PrefixRaw := {}
  lineLabelsShow : Bool := false
  lineLabelsPosition : String := "top"
  lineLabelsOffsetX : ℚ := 0
  lineLabelsOffsetY : ℚ := 0
  lineLabels : PrefixRaw := {}
  legendDimensionLabel : String := ""
  legendBar1Label : String := ""
  legendBar2Label : String := ""
  legendLineLabel : String := ""
  tooltipShow : Bool := true
  tooltipShowDimension : Bool := true
  tooltipShowMeasureName : Bool := true
  tooltipShowValue : Bool := true
  tooltipUseCustom : Bool := false
  tooltipTemplate : String := ""

/-- The custom legend label selected by getDisplayName for a role
(src/src/utils/displayNames.js lines 26-29). -/
def customLabelFor (ttype : String) (config : Config) : String :=
  if ttype = "bar1" then config.legendBar1Label
  else if ttype = "bar2" then config.legendBar2Label
  else if ttype = "line" then config.legendLineLabel
  else config.legendDimensionLabel

/-- Embedding of getDisplayName (src/src/utils/displayNames.js lines
20-41).  Pure by construction.  Precedence: non-empty custom label,
then (dimension only) the x-axis title, then the cleaned field name,
then the role fallback literal. -/
def getDisplayName (ttype : String) (fieldNames : FieldNames) (config : Config) : String :=
  let fieldName := fieldNameFor ttype fieldNames
  let customLabel := customLabelFor ttype config
  if customLabel ≠ "" then customLabel
  else if ttype = "dimension" ∧ config.xAxisTitle ≠ "" then config.xAxisTitle
  else if fieldName = "" then (if ttype = "dimension" then "Category" else "Unknown")
  else cleanFieldName fieldName

/-- Embedding of getFieldNames (src/src/utils/displayNames.js lines
46-53): the four mapping fields of the configuration, defaulting to
the empty string. -/
def getFieldNames (config : Config) : FieldNames :=
  { dimension := config.dimension
    bar1 := config.bar1Measure
    bar2 := config.bar2Measure
    line := config.lineMeasure }

/-! Embedding of resolveFieldName
(src/src/hooks/useTableauExtension.js lines 42-55). -/

/-- Column metadata as extracted from the host data table. -/
structure Column where
  fieldName : String
  dataType : String
  index : ℕ
deriving DecidableEq, Repr

/-- JS String.prototype.includes: substring containment. -/
def containsSubstr (s sub : String) : Bool :=
  (s.splitOn sub).length > 1

/-- Embedding of resolveFieldName
(src/src/hooks/useTableauExtension.js lines 42-55): matches a
host-reported base field name against the data column names, by exact
match, then containment of the parenthesised base name, then suffix
match, then falls back to the base name itself. -/
def resolveFieldName (baseFieldName : String) (cols : List Column) : String :=
  if cols.any (fun c => c.fieldName = baseFieldName) then baseFieldName
  else
    match cols.find? (fun c => containsSubstr c.fieldName ("(" ++ baseFieldName ++ ")")) with
    | some wrapped => wrapped.fieldName
    | none =>
      match cols.find? (fun c => c.fieldName.endsWith baseFieldName) with
      | some ew => ew.fieldName
      | none => baseFieldName

/-! Embedding of the App component of src/unnamed/part_000: the
encoding-map effect (lines 134-205) and the debounced save
(lines 73-94). -/

/-- The data-mapping slice of the configuration that the encoding-map
effect reads and writes. -/
structure MappingConfig where
  dimension : String
  bar1Measure : String
  bar2Measure : String
  lineMeasure : String
  useManualMapping : Bool
deriving DecidableEq, Repr

/-- The resolved encoding map delivered by the host: role id to
resolved field name, as an association list (mirrors the JS object
and its Object.keys emptiness test). -/
abbrev EncodingMap := List (String × String)

/-- Role lookup with the source defaulting: encodingMap.role or the
empty string (src/unnamed/part_000 lines 152-155). -/
def encGet (em : EncodingMap) (role : String) : String :=
  (em.lookup role).getD ""

/-- Result of one run of the encoding-map effect body. -/
structure EncodingEffectResult where
  config : MappingConfig
  scheduledSave : Bool
  registeredCleanup : Bool
deriving DecidableEq, Repr

/-- Embedding of the encoding-map effect body (src/unnamed/part_000
lines 134-205).  Guards: not yet initialized or initial settings not
loaded, or an empty encoding map, return without touching anything
(and without registering the effect cleanup).  Otherwise the four
mapping fields are overwritten from the encoding map, useManualMapping
is reset to false, and a debounced save is scheduled, unless all four
fields are unchanged, in which case the previous configuration object
is returned and no save is scheduled. -/
def encodingMapEffect (initialized hasLoadedInitialSettings : Bool)
    (encodingMap : EncodingMap) (prevConfig : MappingConfig) : EncodingEffectResult :=
  if ¬initialized ∨ ¬hasLoadedInitialSettings then ⟨prevConfig, false, false⟩
  else if encodingMap.isEmpty then ⟨prevConfig, false, false⟩
  else
    let newDimension := encGet encodingMap "dimension"
    let newBar1 := encGet encodingMap "bar1"
    let newBar2 := encGet encodingMap "bar2"
    let newLine := encGet encodingMap "line"
    if prevConfig.dimension = newDimension ∧ prevConfig.bar1Measure = newBar1 ∧
        prevConfig.bar2Measure = newBar2 ∧ prevConfig.lineMeasure = newLine then
      ⟨prevConfig, false, true⟩
    else
      ⟨{ prevConfig with
          dimension := newDimension
          bar1Measure := newBar1
          bar2Measure := newBar2
          lineMeasure := newLine
          useManualMapping := false }, true, true⟩

/-- The debounce window of debouncedSaveToTableau in milliseconds
(src/unnamed/part_000 line 93). -/
def debounceMs : ℤ := 2000

/-- State of the App component relevant to configuration persistence:
the current configuration, whether the initial settings load has
happened, the pending debounce timer (scheduling time and the
configuration snapshot passed to debouncedSaveToTableau), whether the
last run of the encoding effect registered its cleanup, whether the
component has been torn down, and the log of executed settings writes
(fire time and serialized snapshot). -/
structure AppPersistState where
  config : MappingConfig
  hasLoadedInitialSettings : Bool
  timer : Option (ℤ × MappingConfig)
  cleanupRegistered : Bool
  tornDown : Bool
  writes : List (ℤ × MappingConfig)
deriving DecidableEq, Repr

/-- Events driving the App persistence state: the one-time initial
settings load, a live encoding change at time t, a SettingsChanged
reload delivering a configuration (src/unnamed/part_000 lines 36-70,
which does not touch the debounce timer), the debounce timer firing,
and component teardown. -/
inductive AppEvent where
  | initialLoad
  | encodingChanged (t : ℤ) (em : EncodingMap)
  | settingsChanged (cfg : MappingConfig)
  | timerFire (t : ℤ)
  | unmount
deriving DecidableEq, Repr

/-- One step of the App persistence state machine, embedded from
src/unnamed/part_000.  On an encoding change React first runs the
cleanup registered by the previous effect run (cancelling a pending
debounced save, lines 198-204), then runs the effect body; a scheduled
save stores the snapshot passed at scheduling time and fires
debounceMs later (lines 73-94: the timeout closure serializes the
configToSave argument captured when the timer was scheduled).  A
SettingsChanged reload replaces the configuration without touching the
timer.  Unmount runs the registered cleanup, cancelling any pending
save. -/
def appStep (s : AppPersistState) (e : AppEvent) : AppPersistState :=
  if s.tornDown then s
  else
    match e with
    | .initialLoad => { s with hasLoadedInitialSettings := true }
    | .encodingChanged t em =>
      let s1 := if s.cleanupRegistered then { s with timer := none } else s
      let r := encodingMapEffect true s1.hasLoadedInitialSettings em s1.config
      { s1 with
          config := r.config
          timer := if r.scheduledSave then some (t, r.config) else s1.timer
          cleanupRegistered := r.registeredCleanup }
    | .settingsChanged cfg => { s with config := cfg }
    | .timerFire t =>
      match s.timer with
      | some p =>
        if t = p.1 + debounceMs then
          { s with timer := none, writes := s.writes ++ [(t, p.2)] }
        else s
      | none => s
    | .unmount =>
      { s with
          timer := if s.cleanupRegistered then none else s.timer
          tornDown := true }

/-- Initial App persistence state for a starting configuration. -/
def appInit (c0 : MappingConfig) : AppPersistState :=
  ⟨c0, false, none, false, false, []⟩

/-- Run the App persistence state machine over a sequence of events. -/
def appRun (c0 : MappingConfig) (evs : List AppEvent) : AppPersistState :=
  evs.foldl appStep (appInit c0)

/-! Embedding of the ComboChart renderer (src/unnamed/part_001). -/

/-- One data cell of a row: raw value and host-formatted string. -/
structure Cell where
  value : JsVal
  formattedValue : String
deriving DecidableEq, Repr

/-- A data row: field name to cell, as an association list. -/
abbrev Row := List (String × Cell)

/-- Property access d[field] on a row. -/
def rowGet (r : Row) (field : String) : Option Cell := r.lookup field

/-- Category value of a row (src/unnamed/part_001 line 132):
formattedValue if truthy, else the raw value, else undefined. -/
def rowCategory (r : Row) (field : String) : JsVal :=
  match rowGet r field with
  | none => JsVal.undef
  | some c => if c.formattedValue ≠ "" then JsVal.str c.formattedValue else c.value

/-- Measure value of a row for a mapped field
(src/unnamed/part_001 lines 133-135): parseFloat of the raw value,
with NaN (and a missing cell) giving 0. -/
def measureValue (r : Row) (field : String) : ℚ :=
  match rowGet r field with
  | none => 0
  | some c => (jsParseFloat c.value).getD 0

/-- One derived per-category record (src/unnamed/part_001 lines
131-136). -/
structure ChartDatum where
  category : JsVal
  bar1 : ℚ
  bar2 : ℚ
  line : ℚ
deriving DecidableEq, Repr

/-- Embedding of the chart-data preparation and x-axis sort
(src/unnamed/part_001 lines 131-146).  The localeCompare comparator is
modelled by code-point string order; the JS sort is stable, as is
mergeSort. -/
def prepareChartData (cfg : Config) (rows : List Row) : List ChartDatum :=
  let mapped := rows.map (fun d =>
    { category := rowCategory d cfg.dimension
      bar1 := if cfg.bar1Measure ≠ "" then measureValue d cfg.bar1Measure else 0
      bar2 := if cfg.bar2Measure ≠ "" then measureValue d cfg.bar2Measure else 0
      line := if cfg.lineMeasure ≠ "" then measureValue d cfg.lineMeasure else 0
      : ChartDatum })
  if cfg.xAxisSort = "asc" then
    mapped.mergeSort (fun a b => decide (jsToString a.category ≤ jsToString b.category))
  else if cfg.xAxisSort = "desc" then
    mapped.mergeSort (fun a b => decide (jsToString b.category ≤ jsToString a.category))
  else if cfg.xAxisSort = "reverse" then mapped.reverse
  else mapped

/-- Model of d3.max on a list of numbers: none for the empty list
(undefined in JS). -/
def d3max (l : List ℚ) : Option ℚ :=
  l.foldl (fun acc x =>
    match acc with
    | none => some x
    | some a => some (max a x)) none

/-- Model of d3.min on a list of numbers: none for the empty list. -/
def d3min (l : List ℚ) : Option ℚ :=
  l.foldl (fun acc x =>
    match acc with
    | none => some x
    | some a => some (min a x)) none

/-- Model of Math.max on two possibly-undefined numbers: undefined or
NaN propagates (none). -/
def mathMaxOpt (a b : Option ℚ) : Option ℚ :=
  match a, b with
  | some x, some y => some (max x y)
  | _, _ => none

/-- Model of Math.min on two possibly-undefined numbers: undefined or
NaN propagates (none). -/
def mathMinOpt (a b : Option ℚ) : Option ℚ :=
  match a, b with
  | some x, some y => some (min x y)
  | _, _ => none

/-- JS defaulting x or 1: an undefined, NaN or zero value becomes 1
(the source guards (stackedMax or 1) and (Math.max(..) or 1)). -/
def jsOr1 (x : Option ℚ) : ℚ :=
  match x with
  | none => 1
  | some q => if q = 0 then 1 else q

/-- Embedding of the left-axis domain computation
(src/unnamed/part_001 lines 182-228), including the shared-axis
override.  none inside a component models a NaN bound (only reachable
with empty data). -/
def computeYLeftDomain (cfg : Config) (chartData : List ChartDatum) : Option ℚ × Option ℚ :=
  let hasBar1 := cfg.bar1Measure ≠ ""
  let hasBar2 := cfg.bar2Measure ≠ ""
  let hasLine := cfg.lineMeasure ≠ ""
  let bar1Values := if hasBar1 then chartData.map (fun d => d.bar1) else [0]
  let bar2Values := if hasBar2 then chartData.map (fun d => d.bar2) else [0]
  let lineValues := if hasLine then chartData.map (fun d => d.line) else [0]
  let bar1Max := d3max bar1Values
  let bar2Max := d3max bar2Values
  let bar1Min := d3min bar1Values
  let bar2Min := d3min bar2Values
  let lineMax := d3max lineValues
  let lineMin := d3min lineValues
  let base :=
    if cfg.barStyle = "stacked" then
      let stackedMax := d3max (chartData.map (fun d =>
        (if hasBar1 then d.bar1 else 0) + (if hasBar2 then d.bar2 else 0)))
      let autoMin : Option ℚ :=
        if cfg.yAxisLeftIncludeZero then some 0
        else (mathMinOpt bar1Min bar2Min).map (fun q => q * (9/10))
      ((match cfg.yAxisLeftMin with
        | some m => some m
        | none => autoMin),
       (match cfg.yAxisLeftMax with
        | some m => some m
        | none => some (jsOr1 stackedMax * (11/10))))
    else
      let barMax := jsOr1 (mathMaxOpt bar1Max bar2Max)
      let barMin := mathMinOpt bar1Min bar2Min
      let autoMin : Option ℚ :=
        if cfg.yAxisLeftIncludeZero then some 0
        else barMin.map (fun q => q * (9/10))
      ((match cfg.yAxisLeftMin with
        | some m => some m
        | none => autoMin),
       (match cfg.yAxisLeftMax with
        | some m => some m
        | none => some (barMax * (11/10))))
  if cfg.axisMode = "shared" then
    let combinedMax := (mathMaxOpt (mathMaxOpt bar1Max bar2Max) lineMax).map
      (fun q => q * (11/10))
    let combinedMin : Option ℚ :=
      if cfg.yAxisLeftIncludeZero then some 0
      else (mathMinOpt (mathMinOpt bar1Min bar2Min) lineMin).map (fun q => q * (9/10))
    ((match cfg.yAxisLeftMin with
      | some m => some m
      | none => combinedMin),
     (match cfg.yAxisLeftMax with
      | some m => some m
      | none => combinedMax))
  else base

/-- The easing names recognized by the renderer (src/unnamed/part_001
lines 149-158); anything else falls back to easeCubicOut. -/
def easingFunctionNames : List String :=
  ["easeLinear", "easeCubicOut", "easeCubicInOut", "easeElastic", "easeBounce",
   "easeBack", "easeQuad"]

/-- Resolved easing name with the source fallback. -/
def easingName (cfg : Config) : String :=
  if easingFunctionNames.contains cfg.animationEasing then cfg.animationEasing
  else "easeCubicOut"

/-- The curve names recognized by the renderer (src/unnamed/part_001
lines 490-495); anything else falls back to linear. -/
def lineCurveNames : List String := ["linear", "monotone", "cardinal", "step"]

/-- Resolved curve name with the source fallback. -/
def resolvedLineCurve (cfg : Config) : String :=
  if lineCurveNames.contains cfg.lineCurve then cfg.lineCurve else "linear"

/-- The point shapes recognized by the renderer (src/unnamed/part_001
lines 543-548); anything else falls back to circle. -/
def pointShapeNames : List String := ["circle", "square", "diamond", "triangle"]

/-- Resolved point shape with the source fallback. -/
def resolvedPointShape (cfg : Config) : String :=
  if pointShapeNames.contains cfg.pointShape then cfg.pointShape else "circle"

/-- Transition parameters of one drawn element: duration, delay and
chart-wide easing. -/
structure AnimSpec where
  duration : ℚ
  delay : ℚ
  easing : String
deriving DecidableEq, Repr

/-- Transition parameters as the renderer sets them: the given
duration and delay when animation is enabled, zero otherwise (the
pattern duration(animationEnabled ? X : 0), delay(animationEnabled ?
Y : 0) of src/unnamed/part_001). -/
def animOf (cfg : Config) (dur del : ℚ) : AnimSpec :=
  if cfg.animationEnabled then ⟨dur, del, easingName cfg⟩
  else ⟨0, 0, easingName cfg⟩

/-- Zero out duration and delay, keeping the easing. -/
def AnimSpec.strip (a : AnimSpec) : AnimSpec := ⟨0, 0, a.easing⟩

/-- A drawn chart primitive with its final (post-transition) geometry
and styling, plus its transition parameters.  Axis elements are
recorded coarsely (their resolved title); their tick geometry is
determined by the scales and never animated. -/
inductive Element where
  | svgText (x y : ℚ) (text : String)
  | gridH (color : String) (opacity : ℚ)
  | gridV (color : String) (opacity : ℚ)
  | barRect (series : String) (x y w h : ℚ) (fill : String) (opacity rx : ℚ)
      (stroke : Option (String × ℚ)) (anim : AnimSpec)
  | barLabel (series : String) (x y : ℚ) (text : String) (finalOpacity : ℚ)
      (anim : AnimSpec)
  | linePath (pts : List (ℚ × ℚ)) (curve stroke : String) (strokeWidth opacity : ℚ)
      (endDash : Option String) (anim : AnimSpec)
  | pointMark (x y : ℚ) (shape : String) (area : ℚ) (fill stroke : String)
      (strokeWidth finalOpacity : ℚ) (anim : AnimSpec)
  | lineLabel (x y : ℚ) (text : String) (finalOpacity : ℚ) (anim : AnimSpec)
  | axisX (title : Option String)
  | axisYLeft (title : Option String)
  | axisYRight (title : Option String)
deriving DecidableEq, Repr

/-- Zero out the transition duration and delay of an element, keeping
everything else (the final geometry, styling and easing). -/
def stripAnim : Element → Element
  | .barRect s x y w h f o r st a => .barRect s x y w h f o r st a.strip
  | .barLabel s x y t fo a => .barLabel s x y t fo a.strip
  | .linePath p c st w o d a => .linePath p c st w o d a.strip
  | .pointMark x y sh ar f st sw fo a => .pointMark x y sh ar f st sw fo a.strip
  | .lineLabel x y t fo a => .lineLabel x y t fo a.strip
  | e => e

/-- The layout and scale functions the renderer consumes: container
size, plot size, the band scale for categories, the inner band scale
for grouped bars, and the two linear value scales.  They are built
from the configuration and data before drawing (src/unnamed/part_001
lines 19-70 and 160-248) and do not depend on the animation flag. -/
structure Scales where
  width : ℚ
  height : ℚ
  chartWidth : ℚ
  chartHeight : ℚ
  x0 : JsVal → ℚ
  x0bw : ℚ
  x1 : String → ℚ
  x1bw : ℚ
  yLeft : ℚ → ℚ
  yRight : ℚ → ℚ

/-- Label text with the configured formatter, falling back to the
comma-grouped d3 default (the pattern fmt ? fmt(v) :
d3.format(',')(v) of src/unnamed/part_001 lines 362, 388 and 599). -/
def labelText (raw : PrefixRaw) (v : ℚ) : String :=
  match getFormatter (getFormatOpts raw) with
  | some fmt => fmt (JsVal.num v)
  | none => defaultNumFmt true v

/-- Final stroke-dasharray of the line path.  Without animation it is
the static style attribute (src/unnamed/part_001 lines 512-516); with
animation, the draw-on transition ends by re-applying the configured
pattern in its end handler (lines 528-536). -/
def lineEndDash (cfg : Config) : Option String :=
  if cfg.animationEnabled then
    if cfg.lineStyle = "dashed" then some "8,4"
    else if cfg.lineStyle = "dotted" then some "2,2"
    else none
  else
    if cfg.lineStyle = "dashed" then some "8,4"
    else if cfg.lineStyle = "dotted" then some "2,2"
    else none

/-- Embedding of the grid drawing (src/unnamed/part_001 lines
251-278). -/
def gridBlock (cfg : Config) : List Element :=
  if cfg.gridHorizontal ∨ cfg.gridVertical then
    (if cfg.gridHorizontal then [Element.gridH cfg.gridColor cfg.gridOpacity] else []) ++
    (if cfg.gridVertical then [Element.gridV cfg.gridColor cfg.gridOpacity] else [])
  else []

/-- One grouped bar1 rectangle at its final geometry, with its
staggered transition (src/unnamed/part_001 lines 290-314). -/
def groupedBar1Rect (sc : Scales) (cfg : Config) (p : ℕ × ChartDatum) : Element :=
  Element.barRect "bar1" (sc.x0 p.2.category + sc.x1 "bar1") (sc.yLeft p.2.bar1)
    sc.x1bw (sc.chartHeight - sc.yLeft p.2.bar1) cfg.bar1Color cfg.bar1Opacity
    cfg.bar1CornerRadius
    (if cfg.bar1ShowBorder then some (cfg.bar1BorderColor, cfg.bar1BorderWidth) else none)
    (animOf cfg cfg.animationDuration ((p.1 : ℚ) * 20))

/-- One grouped bar2 rectangle at its final geometry, with its
staggered transition (src/unnamed/part_001 lines 317-341). -/
def groupedBar2Rect (sc : Scales) (cfg : Config) (p : ℕ × ChartDatum) : Element :=
  Element.barRect "bar2" (sc.x0 p.2.category + sc.x1 "bar2") (sc.yLeft p.2.bar2)
    sc.x1bw (sc.chartHeight - sc.yLeft p.2.bar2) cfg.bar2Color cfg.bar2Opacity
    cfg.bar2CornerRadius
    (if cfg.bar2ShowBorder then some (cfg.bar2BorderColor, cfg.bar2BorderWidth) else none)
    (animOf cfg cfg.animationDuration ((p.1 : ℚ) * 20 + 50))

/-- One bar1 data label (src/unnamed/part_001 lines 344-367). -/
def groupedBar1Label (sc : Scales) (cfg : Config) (d : ChartDatum) : Element :=
  Element.barLabel "bar1"
    (sc.x0 d.category + sc.x1 "bar1" + sc.x1bw / 2 + cfg.bar1LabelsOffsetX)
    ((if cfg.bar1LabelsPosition = "top" then sc.yLeft d.bar1 - 5
      else if cfg.bar1LabelsPosition = "center" then
        sc.yLeft d.bar1 + (sc.chartHeight - sc.yLeft d.bar1) / 2
      else sc.yLeft d.bar1 + 15) + cfg.bar1LabelsOffsetY)
    (labelText cfg.bar1Labels d.bar1) 1 (animOf cfg cfg.animationDuration 0)

/-- One bar2 data label (src/unnamed/part_001 lines 370-393). -/
def groupedBar2Label (sc : Scales) (cfg : Config) (d : ChartDatum) : Element :=
  Element.barLabel "bar2"
    (sc.x0 d.category + sc.x1 "bar2" + sc.x1bw / 2 + cfg.bar2LabelsOffsetX)
    ((if cfg.bar2LabelsPosition = "top" then sc.yLeft d.bar2 - 5
      else if cfg.bar2LabelsPosition = "center" then
        sc.yLeft d.bar2 + (sc.chartHeight - sc.yLeft d.bar2) / 2
      else sc.yLeft d.bar2 + 15) + cfg.bar2LabelsOffsetY)
    (labelText cfg.bar2Labels d.bar2) 1 (animOf cfg cfg.animationDuration 0)

/-- Embedding of the grouped-bar drawing (src/unnamed/part_001 lines
281-393): bar rectangles at their final geometry with their staggered
transitions, then the optional per-series data labels. -/
def groupedBarsBlock (sc : Scales) (cfg : Config) (chartData : List ChartDatum) :
    List Element :=
  (if cfg.bar1Measure ≠ "" then chartData.enum.map (groupedBar1Rect sc cfg) else []) ++
  (if cfg.bar2Measure ≠ "" then chartData.enum.map (groupedBar2Rect sc cfg) else []) ++
  (if cfg.bar1LabelsShow ∧ cfg.bar1Measure ≠ "" then
    chartData.map (groupedBar1Label sc cfg)
   else []) ++
  (if cfg.bar2LabelsShow ∧ cfg.bar2Measure ≠ "" then
    chartData.map (groupedBar2Label sc cfg)
   else [])

/-- One stacked bar1 rectangle: bottom segment, no corner radius, no
per-datum delay (src/unnamed/part_001 lines 425-446). -/
def stackedBar1Rect (sc : Scales) (cfg : Config) (d : ChartDatum) : Element :=
  Element.barRect "bar1" (sc.x0 d.category) (sc.yLeft d.bar1) sc.x0bw
    (sc.chartHeight - sc.yLeft d.bar1) cfg.bar1Color cfg.bar1Opacity 0
    (if cfg.bar1ShowBorder then some (cfg.bar1BorderColor, cfg.bar1BorderWidth) else none)
    (animOf cfg cfg.animationDuration 0)

/-- One stacked bar2 rectangle: drawn from the stack total down to the
top of the bar1 segment, with the corner radius
(src/unnamed/part_001 lines 449-471). -/
def stackedBar2Rect (sc : Scales) (cfg : Config) (d : ChartDatum) : Element :=
  let total := (if cfg.bar1Measure ≠ "" then d.bar1 else 0) +
    (if cfg.bar2Measure ≠ "" then d.bar2 else 0)
  Element.barRect "bar2" (sc.x0 d.category) (sc.yLeft total) sc.x0bw
    (sc.yLeft (if cfg.bar1Measure ≠ "" then d.bar1 else 0) - sc.yLeft total) cfg.bar2Color
    cfg.bar2Opacity cfg.bar2CornerRadius
    (if cfg.bar2ShowBorder then some (cfg.bar2BorderColor, cfg.bar2BorderWidth) else none)
    (animOf cfg cfg.animationDuration 0)

/-- Embedding of the stacked-bar drawing (src/unnamed/part_001 lines
409-486). -/
def stackedBarsBlock (sc : Scales) (cfg : Config) (chartData : List ChartDatum) :
    List Element :=
  (if cfg.bar1Measure ≠ "" then chartData.map (stackedBar1Rect sc cfg) else []) ++
  (if cfg.bar2Measure ≠ "" then chartData.map (stackedBar2Rect sc cfg) else [])

/-- The line path at its final geometry: the data points, resolved
curve, styling, the end-state dash pattern, and the draw-on transition
parameters (src/unnamed/part_001 lines 497-537). -/
def linePathElement (sc : Scales) (cfg : Config) (chartData : List ChartDatum) : Element :=
  Element.linePath
    (chartData.map (fun d => (sc.x0 d.category + sc.x0bw / 2, sc.yRight d.line)))
    (resolvedLineCurve cfg) cfg.lineColor cfg.lineWidth cfg.lineOpacity
    (lineEndDash cfg)
    (if cfg.animationEnabled then ⟨cfg.animationDuration * (12/10), 0, easingName cfg⟩
     else ⟨0, 0, easingName cfg⟩)

/-- One point marker at its final geometry and opacity, with its
staggered fade-in transition (src/unnamed/part_001 lines 554-569). -/
def linePointMark (sc : Scales) (cfg : Config) (p : ℕ × ChartDatum) : Element :=
  Element.pointMark (sc.x0 p.2.category + sc.x0bw / 2) (sc.yRight p.2.line)
    (resolvedPointShape cfg) (cfg.pointSize * cfg.pointSize * 4) cfg.pointFill
    cfg.pointStroke cfg.pointStrokeWidth 1
    (animOf cfg (cfg.animationDuration * (1/2))
      (cfg.animationDuration * (8/10) + (p.1 : ℚ) * 30))

/-- One line data label (src/unnamed/part_001 lines 579-604). -/
def lineLabelElement (sc : Scales) (cfg : Config) (d : ChartDatum) : Element :=
  Element.lineLabel (sc.x0 d.category + sc.x0bw / 2 + cfg.lineLabelsOffsetX)
    ((if cfg.lineLabelsPosition = "top" then sc.yRight d.line - 10
      else if cfg.lineLabelsPosition = "bottom" then sc.yRight d.line + 15
      else sc.yRight d.line + 5) + cfg.lineLabelsOffsetY)
    (labelText cfg.lineLabels d.line) 1 (animOf cfg cfg.animationDuration 0)

/-- Embedding of the line, point-marker and line-label drawing
(src/unnamed/part_001 lines 489-606).  Line labels are drawn inside
the points group, so they require showPoints. -/
def lineBlock (sc : Scales) (cfg : Config) (chartData : List ChartDatum) : List Element :=
  if cfg.lineMeasure ≠ "" then
    [linePathElement sc cfg chartData] ++
    (if cfg.showPoints then
      chartData.enum.map (linePointMark sc cfg) ++
      (if cfg.lineLabelsShow then chartData.map (lineLabelElement sc cfg) else [])
     else [])
  else []

/-- Embedding of the axis drawing (src/unnamed/part_001 lines
608-824), recorded coarsely: which axes are drawn and their resolved
titles.  The right axis is drawn only in dual mode with a mapped line
measure. -/
def axesBlock (cfg : Config) : List Element :=
  let fieldNames := getFieldNames cfg
  let hasLine := cfg.lineMeasure ≠ ""
  let isSharedAxis := cfg.axisMode = "shared"
  (if cfg.xAxisShow then
    let xTitle := if cfg.xAxisTitle ≠ "" then cfg.xAxisTitle
      else getDisplayName "dimension" fieldNames cfg
    [Element.axisX (if cfg.xAxisShowTitle ∧ xTitle ≠ "" then some xTitle else none)]
   else []) ++
  (if cfg.yAxisLeftShow then
    let leftParts := [getDisplayName "bar1" fieldNames cfg,
      getDisplayName "bar2" fieldNames cfg].filter (fun s => s ≠ "")
    let yLeftTitle := if cfg.yAxisLeftTitle ≠ "" then cfg.yAxisLeftTitle
      else String.intercalate " / " leftParts
    [Element.axisYLeft
      (if cfg.yAxisLeftShowTitle ∧ yLeftTitle ≠ "" then some yLeftTitle else none)]
   else []) ++
  (if cfg.yAxisRightShow ∧ hasLine ∧ ¬isSharedAxis then
    let yRightTitle := if cfg.yAxisRightTitle ≠ "" then cfg.yAxisRightTitle
      else getDisplayName "line" fieldNames cfg
    [Element.axisYRight
      (if cfg.yAxisRightShowTitle ∧ yRightTitle ≠ "" then some yRightTitle else none)]
   else [])

/-- Embedding of the ComboChart render effect body past the empty-data
guard (src/unnamed/part_001 lines 98-824).  With no dimension or no
measure mapped it draws only the two centered instructional text lines
naming the missing roles (lines 104-128) and returns; otherwise it
draws grid, bars, line and axes. -/
def renderChart (sc : Scales) (cfg : Config) (rows : List Row) : List Element :=
  let hasDimension := cfg.dimension ≠ ""
  let hasMeasure := cfg.bar1Measure ≠ "" ∨ cfg.bar2Measure ≠ "" ∨ cfg.lineMeasure ≠ ""
  if ¬hasDimension ∨ ¬hasMeasure then
    let missingParts :=
      (if ¬hasDimension then ["a Category dimension"] else []) ++
      (if ¬hasMeasure then ["at least one measure"] else [])
    [Element.svgText (sc.width / 2) (sc.height / 2 - 10)
      ("Assign " ++ String.intercalate " and " missingParts),
     Element.svgText (sc.width / 2) (sc.height / 2 + 15)
      "Use the marks card or open Settings to configure"]
  else
    let chartData := prepareChartData cfg rows
    gridBlock cfg ++
    (if (cfg.bar1Measure ≠ "" ∨ cfg.bar2Measure ≠ "") ∧ cfg.barStyle = "grouped" then
      groupedBarsBlock sc cfg chartData
     else if (cfg.bar1Measure ≠ "" ∨ cfg.bar2Measure ≠ "") ∧ cfg.barStyle = "stacked" then
      stackedBarsBlock sc cfg chartData
     else []) ++
    lineBlock sc cfg chartData ++
    axesBlock cfg

/-- Embedding of the render effect including the empty-data guard
(src/unnamed/part_001 lines 12-16): with null data or no rows, nothing
at all is drawn. -/
def renderComboChartEffect (sc : Scales) (cfg : Config) (data : Option (List Row)) :
    List Element :=
  match data with
  | none => []
  | some rows => if rows.isEmpty then [] else renderChart sc cfg rows

/-- Embedding of the empty-state JSX of the component
(src/unnamed/part_001 lines 934-943): the two text lines shown in
place of the chart when there is no data. -/
def comboChartEmptyState (data : Option (List Row)) : Option (String × String) :=
  match data with
  | none => some ("No data available",
      "Add fields to the marks card or check your data source")
  | some rows =>
    if rows.isEmpty then
      some ("No data available",
        "Add fields to the marks card or check your data source")
    else none

/-- Embedding of the per-line token substitution of the template
branch of showTooltip (src/unnamed/part_001 lines 839-869), for a
hover of the given series and value: every token is replaced in the
source order, numeric token values formatted with the fixed
comma-grouped two-decimal d3 format of the source. -/
def renderTooltipLine (cfg : Config) (fieldNames : FieldNames)
    (chartData : List ChartDatum) (category : JsVal) (ttype : String) (value : ℚ)
    (line : String) : String :=
  let displayName := getDisplayName ttype fieldNames cfg
  let dimensionLabel := getDisplayName "dimension" fieldNames cfg
  let bar1Label := getDisplayName "bar1" fieldNames cfg
  let bar2Label := getDisplayName "bar2" fieldNames cfg
  let lineLabel := getDisplayName "line" fieldNames cfg
  let dataPoint := chartData.find? (fun d => d.category = category)
  let bar1Formatted := match dataPoint with
    | some dp => applyD3NumSpec ⟨true, 2, "f"⟩ dp.bar1
    | none => ""
  let bar2Formatted := match dataPoint with
    | some dp => applyD3NumSpec ⟨true, 2, "f"⟩ dp.bar2
    | none => ""
  let lineFormatted := match dataPoint with
    | some dp => applyD3NumSpec ⟨true, 2, "f"⟩ dp.line
    | none => ""
  let valueFormatted := applyD3NumSpec ⟨true, 2, "f"⟩ value
  (((((((((((((line.replace "\x7bdimension_label\x7d" dimensionLabel).replace
    "\x7bdimension\x7d" (jsToString category)).replace
    "\x7bbar1_label\x7d" bar1Label).replace
    "\x7bbar1_value\x7d" bar1Formatted).replace
    "\x7bbar1\x7d" (bar1Label ++ " : " ++ bar1Formatted)).replace
    "\x7bbar2_label\x7d" bar2Label).replace
    "\x7bbar2_value\x7d" bar2Formatted).replace
    "\x7bbar2\x7d" (bar2Label ++ " : " ++ bar2Formatted)).replace
    "\x7bline_label\x7d" lineLabel).replace
    "\x7bline_value\x7d" lineFormatted).replace
    "\x7bline\x7d" (lineLabel ++ " : " ++ lineFormatted)).replace
    "\x7bmeasure\x7d" displayName).replace
    "\x7bvalue\x7d" valueFormatted)

/-- The rendered tooltip rows of the template branch: one row per
template line (split on newlines), each substituted by
renderTooltipLine, keeping only lines that are non-blank after
substitution (src/unnamed/part_001 lines 854-874). -/
def templateTooltipRows (cfg : Config) (fieldNames : FieldNames)
    (chartData : List ChartDatum) (category : JsVal) (ttype : String) (value : ℚ) :
    List String :=
  ((cfg.tooltipTemplate.splitOn "\n").map
    (renderTooltipLine cfg fieldNames chartData category ttype value)).filter
    (fun r => r.trim ≠ "")

/-! Theorems. -/

/-- C8: getDisplayName returns the first applicable of: the non-empty
custom label for the role; for the dimension role only, the configured
x-axis title; the mapped field name with its aggregation wrapper
stripped (case-insensitively, so that cleanFieldName maps SUM(Sales)
and sum(Sales) to Sales and leaves Sales unchanged); and the fallback
Category for an unmapped dimension or Unknown for an unmapped measure.
It is pure by construction (a Lean function of its arguments). -/
theorem getDisplayName_precedence (ttype : String) (fns : FieldNames) (cfg : Config) :
    (customLabelFor ttype cfg ≠ "" →
      getDisplayName ttype fns cfg = customLabelFor ttype cfg)
    ∧ (customLabelFor ttype cfg = "" → ttype = "dimension" → cfg.xAxisTitle ≠ "" →
      getDisplayName ttype fns cfg = cfg.xAxisTitle)
    ∧ (customLabelFor ttype cfg = "" → (ttype ≠ "dimension" ∨ cfg.xAxisTitle = "") →
      fieldNameFor ttype fns ≠ "" →
      getDisplayName ttype fns cfg = cleanFieldName (fieldNameFor ttype fns))
    ∧ (customLabelFor ttype cfg = "" → (ttype ≠ "dimension" ∨ cfg.xAxisTitle = "") →
      fieldNameFor ttype fns = "" →
      getDisplayName ttype fns cfg = (if ttype = "dimension" then "Category" else "Unknown"))
    ∧ cleanFieldName "SUM(Sales)" = "Sales"
    ∧ cleanFieldName "Sales" = "Sales"
    ∧ cleanFieldName "sum(Sales)" = "Sales" := by
  refine ⟨?_, ?_, ?_, ?_, by with_unfolding_all decide, by with_unfolding_all decide,
    by with_unfolding_all decide⟩
  · intro h
    simp [getDisplayName, h]
  · intro h hd hx
    subst hd
    simp [getDisplayName, h, hx]
  · intro h hor hf
    rcases hor with hor | hor
    · simp [getDisplayName, h, hor, hf]
    · simp [getDisplayName, h, hor, hf]
  · intro h hor hf
    rcases hor with hor | hor
    · simp [getDisplayName, h, hor, hf]
    · simp [getDisplayName, h, hor, hf]

/-- C8 (witness): with no custom label and no axis title, the bar1
display name is the cleaned mapped field name. -/
theorem getDisplayName_precedence_witness :
    getDisplayName "bar1" ⟨"", "SUM(Sales)", "", ""⟩ {} =
      cleanFieldName (fieldNameFor "bar1" ⟨"", "SUM(Sales)", "", ""⟩) :=
  (getDisplayName_precedence "bar1" ⟨"", "SUM(Sales)", "", ""⟩ {}).2.2.1
    (by with_unfolding_all decide) (Or.inl (by with_unfolding_all decide))
    (by with_unfolding_all decide)

/-- C9: resolveFieldName tries, in order, an exact column-name match,
the first column containing the base name wrapped in parentheses, the
first column ending with the base name, and otherwise returns the base
name unchanged (it never fails); resolving Sales against the columns
Region and SUM(Sales) yields SUM(Sales). -/
theorem resolveFieldName_precedence (base : String) (cols : List Column) :
    (cols.any (fun c => c.fieldName = base) = true →
      resolveFieldName base cols = base)
    ∧ (cols.any (fun c => c.fieldName = base) = false →
      ∀ c, cols.find? (fun c => containsSubstr c.fieldName ("(" ++ base ++ ")")) = some c →
        resolveFieldName base cols = c.fieldName)
    ∧ (cols.any (fun c => c.fieldName = base) = false →
      cols.find? (fun c => containsSubstr c.fieldName ("(" ++ base ++ ")")) = none →
      ∀ c, cols.find? (fun c => c.fieldName.endsWith base) = some c →
        resolveFieldName base cols = c.fieldName)
    ∧ (cols.any (fun c => c.fieldName = base) = false →
      cols.find? (fun c => containsSubstr c.fieldName ("(" ++ base ++ ")")) = none →
      cols.find? (fun c => c.fieldName.endsWith base) = none →
      resolveFieldName base cols = base)
    ∧ resolveFieldName "Sales" [⟨"Region", "string", 0⟩, ⟨"SUM(Sales)", "float", 1⟩]
      = "SUM(Sales)" := by
  refine ⟨?_, ?_, ?_, ?_, by with_unfolding_all decide⟩
  · intro h
    simp [resolveFieldName, h]
  · intro h c hc
    simp [resolveFieldName, h, hc]
  · intro h h2 c hc
    simp [resolveFieldName, h, h2, hc]
  · intro h h2 h3
    simp [resolveFieldName, h, h2, h3]

/-- C9 (witness): an exact column match resolves to the base name. -/
theorem resolveFieldName_precedence_witness :
    resolveFieldName "Sales" [⟨"Sales", "float", 0⟩] = "Sales" :=
  (resolveFieldName_precedence "Sales" [⟨"Sales", "float", 0⟩]).1
    (by with_unfolding_all decide)

/-- The format names recognized by getFormatter, plus auto. -/
def validFormats : List String :=
  ["number", "currency", "scientific", "percent", "custom", "date", "compact", "auto"]

/-- Format options holding exactly the getFormatOpts defaults. -/
def defaultFormatOpts : FormatOpts := getFormatOpts {}

/-- Format options selecting the custom format with an empty custom
pattern (the getFormatOpts default for an unset pattern). -/
def customEmptyOpts : FormatOpts := { defaultFormatOpts with format := "custom" }

/-- Format options selecting the custom format with an invalid d3
specifier. -/
def customBadOpts : FormatOpts :=
  { defaultFormatOpts with format := "custom", customFormat := "qq" }

/-- C3 (amended): for every valid format option combination,
getFormatter returns null exactly when format is auto, or when format
is custom with an empty custom pattern; a custom format whose d3
specifier does not parse degrades to plain string coercion of the
value wrapped in the configured prefix and suffix; under format date,
a value that does not parse as a date is rendered as String(value).
Every returned formatter is a total Lean function into String, so
formatting never throws. -/
theorem getFormatter_spec (o : FormatOpts) (hv : o.format ∈ validFormats) :
    ((getFormatter o).isNone ↔
      (o.format = "auto" ∨ (o.format = "custom" ∧ o.customFormat = "")))
    ∧ (o.format = "custom" → o.customFormat ≠ "" → parseD3NumSpec o.customFormat = none →
      getFormatter o = some (fun vj => o.prefixText ++ jsToString vj ++ o.suffixText))
    ∧ (o.format = "date" → ∀ v, jsNewDate v = none →
      ∃ f, getFormatter o = some f ∧ f v = jsToString v) := by
  refine ⟨?_, ?_, ?_⟩
  · simp only [validFormats, List.mem_cons, List.not_mem_nil, or_false] at hv
    rcases hv with h | h | h | h | h | h | h | h
    · simp [getFormatter, h]
    · simp [getFormatter, h]
    · simp [getFormatter, h]
    · simp [getFormatter, h]
    · by_cases hc : o.customFormat = ""
      · simp [getFormatter, h, hc]
      · rcases hd : d3Format o.customFormat with _ | f
        · simp [getFormatter, h, hc, hd]
        · simp [getFormatter, h, hc, hd]
    · simp [getFormatter, h]
    · simp [getFormatter, h]
    · simp [getFormatter, h]
  · intro h hc hp
    simp [getFormatter, h, hc, d3Format, hp]
  · intro h v hv2
    refine ⟨buildDateFormatter o.dateFormat o.customDateFormat, ?_, ?_⟩
    · simp [getFormatter, h]
    · simp [buildDateFormatter, hv2]

/-- C3 (counterexample to the claim as stated): with the valid format
custom and the default empty custom pattern, getFormatter returns null
although the format is not auto and not unset. -/
theorem getFormatter_custom_empty_counterexample :
    (getFormatter customEmptyOpts).isNone = true
    ∧ customEmptyOpts.format ≠ "auto" ∧ customEmptyOpts.format ≠ "" := by
  with_unfolding_all decide

/-- C3 (witness): the invalid custom specifier qq degrades to plain
string coercion with empty prefix and suffix. -/
theorem getFormatter_spec_witness :
    getFormatter customBadOpts
      = some (fun vj => customBadOpts.prefixText ++ jsToString vj ++ customBadOpts.suffixText) :=
  (getFormatter_spec customBadOpts (by with_unfolding_all decide)).2.1
    (by with_unfolding_all decide) (by with_unfolding_all decide)
    (by with_unfolding_all decide)

/-- Tooltip configuration of the template example of the claim. -/
def tooltipCfg : Config :=
  { tooltipUseCustom := true
    tooltipTemplate := "\x7bdimension_label\x7d : \x7bdimension\x7d\n\x7bbar1_label\x7d : \x7bbar1_value\x7d" }

/-- Resolved field names of the template example of the claim. -/
def tooltipFns : FieldNames := ⟨"Region", "Sales", "", ""⟩

/-- Chart data of the template example of the claim: category West
with bar1 value 1234.5. -/
def tooltipData : List ChartDatum := [⟨JsVal.str "West", 1234.5, 0, 0⟩]

/-- C5 (counterexample to the claim as stated): the template example
renders the first row as Region : West (the dimension label resolves
through getDisplayName to the cleaned field name Region, since no
custom label and no x-axis title are configured), not Category :
West. -/
theorem templateTooltip_counterexample :
    templateTooltipRows tooltipCfg tooltipFns tooltipData (JsVal.str "West") "bar1" 1234.5
      = ["Region : West", "Sales : 1,234.50"]
    ∧ ("Region : West" : String) ≠ "Category : West" := by
  with_unfolding_all decide

/-- C5 (amended): each template line becomes one rendered tooltip row
with every token substituted by renderTooltipLine, rows blank after
substitution are dropped (so every rendered row is non-blank), numeric
token values are formatted with a thousands separator and two
decimals, and the example template with field names Region and Sales,
hovering West with bar1 value 1234.5, renders exactly the rows
Region : West and Sales : 1,234.50. -/
theorem templateTooltipRows_spec (cfg : Config) (fns : FieldNames)
    (cd : List ChartDatum) (cat : JsVal) (ty : String) (v : ℚ) :
    templateTooltipRows cfg fns cd cat ty v
      = ((cfg.tooltipTemplate.splitOn "\n").map
          (renderTooltipLine cfg fns cd cat ty v)).filter (fun r => r.trim ≠ "")
    ∧ (∀ r ∈ templateTooltipRows cfg fns cd cat ty v, r.trim ≠ "")
    ∧ templateTooltipRows tooltipCfg tooltipFns tooltipData (JsVal.str "West") "bar1" 1234.5
      = ["Region : West", "Sales : 1,234.50"] := by
  refine ⟨rfl, ?_, by with_unfolding_all decide⟩
  intro r hr
  simp only [templateTooltipRows, List.mem_filter, decide_not] at hr
  simpa using hr.2

/-- C5 (witness): the first rendered row of the example is
non-blank. -/
theorem templateTooltipRows_spec_witness : ("Region : West" : String).trim ≠ "" :=
  (templateTooltipRows_spec tooltipCfg tooltipFns tooltipData (JsVal.str "West") "bar1"
    1234.5).2.1 "Region : West" (by with_unfolding_all decide)

/-- C1 (counterexample to the claim as stated): a live-encoding event
with a non-empty map overwrites the mapping fields although
useManualMapping is true; an event with an empty encoding map leaves
non-empty fields untouched and schedules no save, although the claim
requires overwriting them with empty strings; and a no-change event
arriving while a debounced save is pending cancels that save (the
effect re-run first runs the previous cleanup and the no-change body
never reschedules), although the claim requires pending writes to be
left untouched. -/
theorem encodingEffect_counterexample :
    (encodingMapEffect true true [("dimension", "Region")]
      ⟨"X", "", "", "", true⟩).config.dimension = "Region"
    ∧ (⟨"X", "", "", "", true⟩ : MappingConfig).useManualMapping = true
    ∧ ("Region" : String) ≠ "X"
    ∧ encodingMapEffect true true [] ⟨"A", "B", "C", "D", false⟩
      = ⟨⟨"A", "B", "C", "D", false⟩, false, false⟩
    ∧ (⟨"A", "B", "C", "D", false⟩ : MappingConfig).dimension ≠ ""
    ∧ (appStep ⟨⟨"A", "", "", "", false⟩, true, some (5, ⟨"A", "", "", "", false⟩),
        true, false, []⟩ (AppEvent.encodingChanged 9 [("dimension", "A")])).timer = none
    ∧ (appStep ⟨⟨"A", "", "", "", false⟩, true, some (5, ⟨"A", "", "", "", false⟩),
        true, false, []⟩ (AppEvent.encodingChanged 9 [("dimension", "A")])).config
      = ⟨"A", "", "", "", false⟩
    ∧ some ((5 : ℤ), (⟨"A", "", "", "", false⟩ : MappingConfig)) ≠ none := by
  with_unfolding_all decide

/-- C1 (amended): an encoding event first runs the cleanup registered
by the previous effect run, cancelling any still-pending debounced
save.  Before the initial settings load, or with an empty encoding
map, the event then changes nothing else: the configuration and the
log of executed writes are unchanged and no save is scheduled, so a
save that was pending stays cancelled.  Otherwise the event overwrites
the four mapping fields from the map (missing roles becoming empty
strings) and resets useManualMapping to false regardless of its
previous value, scheduling exactly one debounced save, if and only if
at least one of the four fields differs; when all four are unchanged
the configuration object and executed writes are unchanged and no new
save is scheduled, so there too a previously pending save stays
cancelled rather than preserved. -/
theorem encodingMapEffect_spec (s : AppPersistState) (t : ℤ) (em : EncodingMap)
    (hts : s.tornDown = false) :
    (s.hasLoadedInitialSettings = false ∨ em = [] →
      appStep s (AppEvent.encodingChanged t em)
        = { s with
            timer := if s.cleanupRegistered then none else s.timer
            cleanupRegistered := false })
    ∧ (s.hasLoadedInitialSettings = true → em ≠ [] →
      ((s.config.dimension = encGet em "dimension"
          ∧ s.config.bar1Measure = encGet em "bar1"
          ∧ s.config.bar2Measure = encGet em "bar2"
          ∧ s.config.lineMeasure = encGet em "line") →
        appStep s (AppEvent.encodingChanged t em)
          = { s with
              timer := if s.cleanupRegistered then none else s.timer
              cleanupRegistered := true })
      ∧ (¬(s.config.dimension = encGet em "dimension"
          ∧ s.config.bar1Measure = encGet em "bar1"
          ∧ s.config.bar2Measure = encGet em "bar2"
          ∧ s.config.lineMeasure = encGet em "line") →
        appStep s (AppEvent.encodingChanged t em)
          = { s with
              config := ⟨encGet em "dimension", encGet em "bar1", encGet em "bar2",
                encGet em "line", false⟩
              timer := some (t, (⟨encGet em "dimension", encGet em "bar1",
                encGet em "bar2", encGet em "line", false⟩ : MappingConfig))
              cleanupRegistered := true })) := by
  obtain ⟨cfg0, loaded, tm, cr, td, ws⟩ := s
  replace hts : td = false := hts
  subst hts
  refine ⟨?_, fun hl hne => ⟨?_, ?_⟩⟩
  · rintro (hl | rfl)
    · replace hl : loaded = false := hl
      subst hl
      cases cr <;> simp [appStep, encodingMapEffect]
    · cases loaded <;> cases cr <;> simp [appStep, encodingMapEffect]
  · rintro ⟨h1, h2, h3, h4⟩
    replace hl : loaded = true := hl
    subst hl
    replace h1 : cfg0.dimension = encGet em "dimension" := h1
    replace h2 : cfg0.bar1Measure = encGet em "bar1" := h2
    replace h3 : cfg0.bar2Measure = encGet em "bar2" := h3
    replace h4 : cfg0.lineMeasure = encGet em "line" := h4
    cases em with
    | nil => exact absurd rfl hne
    | cons p l =>
      cases cr <;> simp [appStep, encodingMapEffect, h1, h2, h3, h4]
  · intro hneq
    replace hl : loaded = true := hl
    subst hl
    replace hneq : ¬(cfg0.dimension = encGet em "dimension"
        ∧ cfg0.bar1Measure = encGet em "bar1"
        ∧ cfg0.bar2Measure = encGet em "bar2"
        ∧ cfg0.lineMeasure = encGet em "line") := hneq
    cases em with
    | nil => exact absurd rfl hne
    | cons p l =>
      cases cr <;> simp [appStep, encodingMapEffect, hneq]

/-- C1 (witness): a manual-mapping configuration with no pending save
is overwritten by a non-empty encoding event and exactly one debounced
save of the fresh snapshot is scheduled. -/
theorem encodingMapEffect_spec_witness :
    appStep ⟨⟨"X", "", "", "", true⟩, true, none, false, false, []⟩
        (AppEvent.encodingChanged 0 [("dimension", "Region")])
      = ⟨⟨"Region", "", "", "", false⟩, true,
          some (0, ⟨"Region", "", "", "", false⟩), true, false, []⟩ := by
  rw [((encodingMapEffect_spec ⟨⟨"X", "", "", "", true⟩, true, none, false, false, []⟩
    0 [("dimension", "Region")] rfl).2 rfl (by with_unfolding_all decide)).2
    (by with_unfolding_all decide)]
  with_unfolding_all decide

/-- Grouped configuration, zero-excluded axis, single bar series. -/
def cfgC4a : Config := { bar1Measure := "Sales", yAxisLeftIncludeZero := false }

/-- Bar1 values 10, 20, 30. -/
def dataC4a : List ChartDatum :=
  [⟨JsVal.str "a", 10, 0, 0⟩, ⟨JsVal.str "b", 20, 0, 0⟩, ⟨JsVal.str "c", 30, 0, 0⟩]

/-- Grouped configuration with a single bar series, default axis. -/
def cfgC4b : Config := { bar1Measure := "Sales" }

/-- A single all-zero row. -/
def dataC4b : List ChartDatum := [⟨JsVal.str "a", 0, 0, 0⟩]

/-- Stacked configuration in shared-axis mode with two bar series. -/
def cfgC4c : Config :=
  { bar1Measure := "Sales", bar2Measure := "Profit", barStyle := "stacked"
    axisMode := "shared" }

/-- One category with bar1 = 3 and bar2 = 3 (stack total 6). -/
def dataC4c : List ChartDatum := [⟨JsVal.str "a", 3, 3, 0⟩]

/-- Grouped configuration, zero-excluded axis, both bar series. -/
def cfgC4d : Config :=
  { bar1Measure := "Sales", bar2Measure := "Profit", yAxisLeftIncludeZero := false }

/-- Both bar series mapped, bar values 10..35 with minimum 10. -/
def dataC4d : List ChartDatum :=
  [⟨JsVal.str "a", 10, 15, 0⟩, ⟨JsVal.str "b", 20, 25, 0⟩, ⟨JsVal.str "c", 30, 35, 0⟩]

/-- C4 (counterexample to the claim as stated): with only bar1 mapped
and values 10, 20, 30 and zero-inclusion off, the computed minimum is
0 (the unmapped bar2 series contributes 0 to the observed minimum),
not 9; with all bar values 0 the computed maximum is 1.1 (the observed
maximum is replaced by 1), not 0; and in shared-axis mode with stacked
bars the maximum ignores stacking (1.1 times the largest single
series, 3.3), not 1.1 times the stack total 6. -/
theorem yLeftDomain_counterexample :
    ((computeYLeftDomain cfgC4a dataC4a).1 = some 0 ∧ (0 : ℚ) ≠ 10 * (9/10))
    ∧ ((computeYLeftDomain cfgC4b dataC4b).2 = some (11/10) ∧ (11/10 : ℚ) ≠ 0 * (11/10))
    ∧ ((computeYLeftDomain cfgC4c dataC4c).2 = some (33/10)
      ∧ (33/10 : ℚ) ≠ 6 * (11/10)) := by
  with_unfolding_all decide

/-- C4 (amended): outside shared-axis mode, an explicit
yAxisLeftMin/yAxisLeftMax override always replaces the corresponding
auto bound; with zero-inclusion the auto minimum is 0, without it the
auto minimum is 0.9 times the observed minimum where an unmapped bar
series contributes the value 0; the auto maximum is 1.1 times the
per-category maximum of bar1+bar2 when stacked, and 1.1 times the
larger of the two series maxima otherwise, an observed maximum of 0
(or of no data) being replaced by 1 first; with both series mapped and
bar values of minimum 10 and maximum 35, the computed domain is
(9, 38.5). -/
theorem computeYLeftDomain_spec (cfg : Config) (cd : List ChartDatum)
    (hns : cfg.axisMode ≠ "shared") :
    (∀ m, cfg.yAxisLeftMin = some m → (computeYLeftDomain cfg cd).1 = some m)
    ∧ (∀ m, cfg.yAxisLeftMax = some m → (computeYLeftDomain cfg cd).2 = some m)
    ∧ (cfg.yAxisLeftMin = none → cfg.yAxisLeftIncludeZero = true →
      (computeYLeftDomain cfg cd).1 = some 0)
    ∧ (cfg.yAxisLeftMin = none → cfg.yAxisLeftIncludeZero = false →
      (computeYLeftDomain cfg cd).1 =
        (mathMinOpt
          (d3min (if cfg.bar1Measure ≠ "" then cd.map (fun d => d.bar1) else [0]))
          (d3min (if cfg.bar2Measure ≠ "" then cd.map (fun d => d.bar2) else [0]))).map
          (fun q => q * (9/10)))
    ∧ (cfg.yAxisLeftMax = none → cfg.barStyle = "stacked" →
      (computeYLeftDomain cfg cd).2 =
        some (jsOr1 (d3max (cd.map (fun d =>
          (if cfg.bar1Measure ≠ "" then d.bar1 else 0) +
          (if cfg.bar2Measure ≠ "" then d.bar2 else 0)))) * (11/10)))
    ∧ (cfg.yAxisLeftMax = none → cfg.barStyle ≠ "stacked" →
      (computeYLeftDomain cfg cd).2 =
        some (jsOr1 (mathMaxOpt
          (d3max (if cfg.bar1Measure ≠ "" then cd.map (fun d => d.bar1) else [0]))
          (d3max (if cfg.bar2Measure ≠ "" then cd.map (fun d => d.bar2) else [0]))) * (11/10)))
    ∧ computeYLeftDomain cfgC4d dataC4d = (some 9, some (77/2)) := by
  refine ⟨?_, ?_, ?_, ?_, ?_, ?_, by with_unfolding_all decide⟩
  · intro m hm
    by_cases hb : cfg.barStyle = "stacked" <;> simp [computeYLeftDomain, hns, hb, hm]
  · intro m hm
    by_cases hb : cfg.barStyle = "stacked" <;> simp [computeYLeftDomain, hns, hb, hm]
  · intro hm hz
    by_cases hb : cfg.barStyle = "stacked" <;> simp [computeYLeftDomain, hns, hb, hm, hz]
  · intro hm hz
    by_cases hb : cfg.barStyle = "stacked" <;> simp [computeYLeftDomain, hns, hb, hm, hz]
  · intro hm hb
    simp [computeYLeftDomain, hns, hb, hm]
  · intro hm hb
    simp [computeYLeftDomain, hns, hb, hm]

/-- C4 (witness): the computed minimum for the both-series fixture is
9. -/
theorem computeYLeftDomain_spec_witness :
    (computeYLeftDomain cfgC4d dataC4d).1 = some 9 := by
  rw [(computeYLeftDomain_spec cfgC4d dataC4d (by with_unfolding_all decide)).2.2.2.1
    rfl rfl]
  with_unfolding_all decide

/-- Reachability invariant of the App persistence state: a pending
timer implies the effect cleanup is registered, and a torn-down
component has no pending timer. -/
def AppInv (s : AppPersistState) : Prop :=
  (s.timer.isSome = true → s.cleanupRegistered = true)
  ∧ (s.tornDown = true → s.timer = none)

/-- A scheduled save implies the effect run registered its cleanup. -/
theorem encodingMapEffect_reg (i hl : Bool) (em : EncodingMap) (c : MappingConfig) :
    (encodingMapEffect i hl em c).scheduledSave = true →
    (encodingMapEffect i hl em c).registeredCleanup = true := by
  simp only [encodingMapEffect]
  split
  · simp
  · split
    · simp
    · split <;> simp

/-- One App step preserves the reachability invariant. -/
theorem appStep_inv (s : AppPersistState) (e : AppEvent) (h : AppInv s) :
    AppInv (appStep s e) := by
  obtain ⟨h1, h2⟩ := h
  cases hts : s.tornDown with
  | true =>
    rw [show appStep s e = s from by simp [appStep, hts]]
    exact ⟨h1, h2⟩
  | false =>
    cases e with
    | initialLoad =>
      constructor
      · intro hs
        simp only [appStep, hts] at hs ⊢
        simp only [Bool.false_eq_true, if_false] at hs ⊢
        exact h1 hs
      · intro htd
        simp [appStep, hts] at htd
    | encodingChanged t em =>
      by_cases hcr : s.cleanupRegistered = true <;>
        by_cases hsch : (encodingMapEffect true s.hasLoadedInitialSettings em
          s.config).scheduledSave = true
      · constructor
        · intro _
          simp [appStep, hts, hcr, hsch]
          exact encodingMapEffect_reg true s.hasLoadedInitialSettings em s.config hsch
        · intro htd
          simp [appStep, hts, hcr] at htd
      · constructor
        · intro hs
          simp [appStep, hts, hcr, hsch] at hs
        · intro htd
          simp [appStep, hts, hcr] at htd
      · constructor
        · intro _
          simp [appStep, hts, hcr, hsch]
          exact encodingMapEffect_reg true s.hasLoadedInitialSettings em s.config hsch
        · intro htd
          simp [appStep, hts, hcr] at htd
      · constructor
        · intro hs
          simp [appStep, hts, hcr, hsch] at hs
          exact absurd (h1 (by simp [hs])) hcr
        · intro htd
          simp [appStep, hts, hcr] at htd
    | settingsChanged cfg =>
      constructor
      · intro hs
        simp only [appStep, hts] at hs ⊢
        simp only [Bool.false_eq_true, if_false] at hs ⊢
        exact h1 hs
      · intro htd
        simp [appStep, hts] at htd
    | timerFire t =>
      cases htm : s.timer with
      | none =>
        constructor
        · intro hs
          simp only [appStep, hts, htm] at hs ⊢
          simp only [Bool.false_eq_true, if_false] at hs ⊢
          exact h1 hs
        · intro htd
          simp [appStep, hts, htm] at htd
      | some p =>
        by_cases hq : t = p.1 + debounceMs
        · constructor
          · intro hs
            simp [appStep, hts, htm, hq] at hs
          · intro htd
            simp [appStep, hts, htm, hq] at htd
        · constructor
          · intro _
            have hsome : s.timer.isSome = true := by rw [htm]; rfl
            simp only [appStep, hts, htm]
            simp only [Bool.false_eq_true, if_false, if_neg hq]
            exact h1 hsome
          · intro htd
            simp [appStep, hts, htm, hq] at htd
    | unmount =>
      by_cases hcr : s.cleanupRegistered = true
      · constructor
        · intro hs
          simp [appStep, hts, hcr] at hs
        · intro _
          simp [appStep, hts, hcr]
      · constructor
        · intro hs
          simp [appStep, hts, hcr] at hs
          exact absurd (h1 (by simp [hs])) hcr
        · intro _
          simp only [appStep, hts]
          simp only [Bool.false_eq_true, if_false]
          simp only [hcr, if_false]
          cases htm : s.timer with
          | none => simp
          | some p => exact absurd (h1 (by simp [htm])) hcr

/-- Folding App steps preserves the reachability invariant. -/
theorem appFoldl_inv (evs : List AppEvent) :
    ∀ s : AppPersistState, AppInv s → AppInv (evs.foldl appStep s) := by
  induction evs with
  | nil => exact fun s h => h
  | cons e evs ih => exact fun s h => ih (appStep s e) (appStep_inv s e h)

/-- Every reachable App persistence state satisfies the invariant. -/
theorem appRun_inv (c0 : MappingConfig) (evs : List AppEvent) : AppInv (appRun c0 evs) :=
  appFoldl_inv evs (appInit c0) ⟨by simp [appInit], by simp [appInit]⟩

/-- Starting configuration for the staleness trace. -/
def mcEmpty : MappingConfig := ⟨"", "", "", "", false⟩

/-- Configuration snapshot captured when the save is scheduled. -/
def mcRegion : MappingConfig := ⟨"Region", "", "", "", false⟩

/-- Configuration delivered by a later SettingsChanged reload. -/
def mcOther : MappingConfig := ⟨"Other", "", "", "", false⟩

/-- Trace: initial load, encoding change at time 0 (schedules a save),
a SettingsChanged reload, then the debounce timer fires at 2000. -/
def staleTrace : List AppEvent :=
  [AppEvent.initialLoad, AppEvent.encodingChanged 0 [("dimension", "Region")],
   AppEvent.settingsChanged mcOther, AppEvent.timerFire 2000]

/-- Trace prefix used by the witness: initial load and one encoding
change at time 0. -/
def preTrace : List AppEvent :=
  [AppEvent.initialLoad, AppEvent.encodingChanged 0 [("dimension", "Region")]]

/-- C6 (counterexample to the claim as stated): a SettingsChanged
reload between the scheduling and the firing of a debounced save does
not cancel or reschedule it, and the fired write serializes the
snapshot captured at scheduling time, not the configuration current at
the moment the write fires. -/
theorem debounce_stale_counterexample :
    (appRun mcEmpty staleTrace).writes = [(2000, mcRegion)]
    ∧ (appRun mcEmpty staleTrace).config = mcOther
    ∧ mcRegion ≠ mcOther := by
  with_unfolding_all decide

/-- C6 (amended): in every reachable App state, teardown cancels any
pending debounced save and leaves the write log untouched, and after
teardown no event has any effect (so no write occurs after the widget
is torn down); a pending save scheduled at time t0 with snapshot snap
fires exactly debounceMs = 2000 ms after t0 and serializes exactly
that snapshot (the configuration as of the encoding change that last
scheduled it); an encoding event that schedules a save cancels any
pending timer and stores the just-updated configuration as the new
snapshot, so every reschedule refreshes the payload. -/
theorem appDebounce_spec (c0 : MappingConfig) (evs : List AppEvent) :
    ((appRun c0 evs).tornDown = true → ∀ e, appStep (appRun c0 evs) e = appRun c0 evs)
    ∧ ((appStep (appRun c0 evs) AppEvent.unmount).timer = none
      ∧ (appStep (appRun c0 evs) AppEvent.unmount).writes = (appRun c0 evs).writes)
    ∧ (∀ t0 snap, (appRun c0 evs).tornDown = false →
      (appRun c0 evs).timer = some (t0, snap) →
      (appStep (appRun c0 evs) (AppEvent.timerFire (t0 + debounceMs))).writes
        = (appRun c0 evs).writes ++ [(t0 + debounceMs, snap)]
      ∧ (appStep (appRun c0 evs) (AppEvent.timerFire (t0 + debounceMs))).timer = none)
    ∧ (∀ t em, (appRun c0 evs).tornDown = false →
      (encodingMapEffect true (appRun c0 evs).hasLoadedInitialSettings em
        (appRun c0 evs).config).scheduledSave = true →
      (appStep (appRun c0 evs) (AppEvent.encodingChanged t em)).timer
        = some (t, (encodingMapEffect true (appRun c0 evs).hasLoadedInitialSettings em
            (appRun c0 evs).config).config)
      ∧ (appStep (appRun c0 evs) (AppEvent.encodingChanged t em)).config
        = (encodingMapEffect true (appRun c0 evs).hasLoadedInitialSettings em
            (appRun c0 evs).config).config) := by
  have hInv := appRun_inv c0 evs
  refine ⟨?_, ?_, ?_, ?_⟩
  · intro ht e
    simp [appStep, ht]
  · by_cases ht : (appRun c0 evs).tornDown
    · constructor
      · rw [show appStep (appRun c0 evs) AppEvent.unmount = appRun c0 evs from by
          simp [appStep, ht]]
        exact hInv.2 ht
      · rw [show appStep (appRun c0 evs) AppEvent.unmount = appRun c0 evs from by
          simp [appStep, ht]]
    · by_cases hcr : (appRun c0 evs).cleanupRegistered
      · constructor <;> simp [appStep, ht, hcr]
      · constructor
        · cases htm : (appRun c0 evs).timer with
          | none => simp [appStep, ht, hcr, htm]
          | some p => exact absurd (hInv.1 (by simp [htm])) hcr
        · simp [appStep, ht, hcr]
  · intro t0 snap ht htm
    constructor <;> simp [appStep, ht, htm]
  · intro t em ht hs
    by_cases hcr : (appRun c0 evs).cleanupRegistered <;>
      constructor <;> simp [appStep, ht, hcr, hs]

/-- C6 (witness): after an encoding change at time 0, the pending save
fires at time 2000 and writes the scheduled snapshot. -/
theorem appDebounce_spec_witness :
    (appStep (appRun mcEmpty preTrace) (AppEvent.timerFire (0 + debounceMs))).writes
      = (appRun mcEmpty preTrace).writes ++ [(0 + debounceMs, mcRegion)] :=
  ((appDebounce_spec mcEmpty preTrace).2.2.1 0 mcRegion (by with_unfolding_all decide)
    (by with_unfolding_all decide)).1

/-- The resolved easing name does not depend on the animation flag. -/
theorem easingName_update (cfg : Config) (b : Bool) :
    easingName { cfg with animationEnabled := b } = easingName cfg := rfl

/-- Stripping the transition parameters the renderer sets yields zero
duration and delay with the chart-wide easing. -/
theorem animOf_strip (cfg : Config) (dur del : ℚ) :
    (animOf cfg dur del).strip = ⟨0, 0, easingName cfg⟩ := by
  by_cases h : cfg.animationEnabled <;> simp [animOf, AnimSpec.strip, h]

/-- With animation disabled, the renderer sets zero duration and
delay. -/
theorem animOf_update_false (cfg : Config) (dur del : ℚ) :
    animOf { cfg with animationEnabled := false } dur del = ⟨0, 0, easingName cfg⟩ := by
  simp [animOf, easingName_update]

/-- The final stroke-dasharray of the line does not depend on the
animation flag: the draw-on end handler restores exactly the static
pattern. -/
theorem lineEndDash_update (cfg : Config) :
    lineEndDash { cfg with animationEnabled := false } = lineEndDash cfg := by
  by_cases h : cfg.animationEnabled <;> simp [lineEndDash, h]

/-- The grid block carries no transitions. -/
theorem gridBlock_strip (cfg : Config) :
    (gridBlock cfg).map stripAnim = gridBlock { cfg with animationEnabled := false } := by
  by_cases h1 : cfg.gridHorizontal <;> by_cases h2 : cfg.gridVertical <;>
    simp [gridBlock, h1, h2, stripAnim]

/-- Stripping one grouped bar1 rectangle equals drawing it with
animation disabled. -/
theorem groupedBar1Rect_strip (sc : Scales) (cfg : Config) (p : ℕ × ChartDatum) :
    stripAnim (groupedBar1Rect sc cfg p)
      = groupedBar1Rect sc { cfg with animationEnabled := false } p := by
  simp [groupedBar1Rect, stripAnim, animOf_strip, animOf_update_false]

/-- Stripping one grouped bar2 rectangle equals drawing it with
animation disabled. -/
theorem groupedBar2Rect_strip (sc : Scales) (cfg : Config) (p : ℕ × ChartDatum) :
    stripAnim (groupedBar2Rect sc cfg p)
      = groupedBar2Rect sc { cfg with animationEnabled := false } p := by
  simp [groupedBar2Rect, stripAnim, animOf_strip, animOf_update_false]

/-- Stripping one bar1 label equals drawing it with animation
disabled. -/
theorem groupedBar1Label_strip (sc : Scales) (cfg : Config) (d : ChartDatum) :
    stripAnim (groupedBar1Label sc cfg d)
      = groupedBar1Label sc { cfg with animationEnabled := false } d := by
  simp [groupedBar1Label, stripAnim, animOf_strip, animOf_update_false]

/-- Stripping one bar2 label equals drawing it with animation
disabled. -/
theorem groupedBar2Label_strip (sc : Scales) (cfg : Config) (d : ChartDatum) :
    stripAnim (groupedBar2Label sc cfg d)
      = groupedBar2Label sc { cfg with animationEnabled := false } d := by
  simp [groupedBar2Label, stripAnim, animOf_strip, animOf_update_false]

/-- Stripping transition parameters from the grouped-bar block equals
rendering it with animation disabled. -/
theorem groupedBarsBlock_strip (sc : Scales) (cfg : Config) (cd : List ChartDatum) :
    (groupedBarsBlock sc cfg cd).map stripAnim
      = groupedBarsBlock sc { cfg with animationEnabled := false } cd := by
  simp [groupedBarsBlock, apply_ite (List.map stripAnim), List.map_map,
    Function.comp_def, groupedBar1Rect_strip, groupedBar2Rect_strip,
    groupedBar1Label_strip, groupedBar2Label_strip]

/-- Stripping one stacked bar1 rectangle equals drawing it with
animation disabled. -/
theorem stackedBar1Rect_strip (sc : Scales) (cfg : Config) (d : ChartDatum) :
    stripAnim (stackedBar1Rect sc cfg d)
      = stackedBar1Rect sc { cfg with animationEnabled := false } d := by
  simp [stackedBar1Rect, stripAnim, animOf_strip, animOf_update_false]

/-- Stripping one stacked bar2 rectangle equals drawing it with
animation disabled. -/
theorem stackedBar2Rect_strip (sc : Scales) (cfg : Config) (d : ChartDatum) :
    stripAnim (stackedBar2Rect sc cfg d)
      = stackedBar2Rect sc { cfg with animationEnabled := false } d := by
  simp [stackedBar2Rect, stripAnim, animOf_strip, animOf_update_false]

/-- Stripping transition parameters from the stacked-bar block equals
rendering it with animation disabled. -/
theorem stackedBarsBlock_strip (sc : Scales) (cfg : Config) (cd : List ChartDatum) :
    (stackedBarsBlock sc cfg cd).map stripAnim
      = stackedBarsBlock sc { cfg with animationEnabled := false } cd := by
  simp [stackedBarsBlock, apply_ite (List.map stripAnim), List.map_map,
    Function.comp_def, stackedBar1Rect_strip, stackedBar2Rect_strip]

/-- The resolved line curve does not depend on the animation flag. -/
theorem resolvedLineCurve_update (cfg : Config) :
    resolvedLineCurve { cfg with animationEnabled := false } = resolvedLineCurve cfg := rfl

/-- The resolved point shape does not depend on the animation flag. -/
theorem resolvedPointShape_update (cfg : Config) :
    resolvedPointShape { cfg with animationEnabled := false } = resolvedPointShape cfg := rfl

/-- Stripping the line path equals drawing it with animation disabled:
the end handler restores the configured dash pattern, so only
duration and delay change. -/
theorem linePathElement_strip (sc : Scales) (cfg : Config) (cd : List ChartDatum) :
    stripAnim (linePathElement sc cfg cd)
      = linePathElement sc { cfg with animationEnabled := false } cd := by
  simp [linePathElement, stripAnim, AnimSpec.strip, lineEndDash_update,
    resolvedLineCurve_update, apply_ite AnimSpec.strip, apply_ite AnimSpec.easing,
    ite_self, easingName]

/-- Stripping one point marker equals drawing it with animation
disabled. -/
theorem linePointMark_strip (sc : Scales) (cfg : Config) (p : ℕ × ChartDatum) :
    stripAnim (linePointMark sc cfg p)
      = linePointMark sc { cfg with animationEnabled := false } p := by
  simp [linePointMark, stripAnim, animOf_strip, animOf_update_false,
    resolvedPointShape_update]

/-- Stripping one line label equals drawing it with animation
disabled. -/
theorem lineLabelElement_strip (sc : Scales) (cfg : Config) (d : ChartDatum) :
    stripAnim (lineLabelElement sc cfg d)
      = lineLabelElement sc { cfg with animationEnabled := false } d := by
  simp [lineLabelElement, stripAnim, animOf_strip, animOf_update_false]

/-- Stripping transition parameters from the line block equals
rendering it with animation disabled (the dash pattern is restored by
the end handler, so the end state agrees). -/
theorem lineBlock_strip (sc : Scales) (cfg : Config) (cd : List ChartDatum) :
    (lineBlock sc cfg cd).map stripAnim
      = lineBlock sc { cfg with animationEnabled := false } cd := by
  simp [lineBlock, apply_ite (List.map stripAnim), List.map_map, Function.comp_def,
    linePathElement_strip, linePointMark_strip, lineLabelElement_strip]

/-- The axes block carries no transitions. -/
theorem axesBlock_strip (cfg : Config) :
    (axesBlock cfg).map stripAnim = axesBlock { cfg with animationEnabled := false } := by
  have h : axesBlock { cfg with animationEnabled := false } = axesBlock cfg := rfl
  rw [h]
  by_cases hx : cfg.xAxisShow <;> by_cases hl : cfg.yAxisLeftShow <;>
    by_cases hr : cfg.yAxisRightShow <;> by_cases hm : cfg.lineMeasure = "" <;>
    by_cases hs : cfg.axisMode = "shared" <;>
    simp [axesBlock, hx, hl, hr, hm, hs, stripAnim]

/-- Stripping the transition parameters from a full render equals the
same render with animation disabled. -/
theorem renderChart_strip (sc : Scales) (cfg : Config) (rows : List Row) :
    (renderChart sc cfg rows).map stripAnim
      = renderChart sc { cfg with animationEnabled := false } rows := by
  have hcd : prepareChartData { cfg with animationEnabled := false } rows
      = prepareChartData cfg rows := rfl
  simp [renderChart, hcd, apply_ite (List.map stripAnim), stripAnim, gridBlock_strip,
    groupedBarsBlock_strip, stackedBarsBlock_strip, lineBlock_strip, axesBlock_strip]

/-- C2: the final rendered geometry with animation disabled is
identical to the end state of the same render with animation enabled:
the render with animationEnabled false equals the render with
animationEnabled true with only the transition durations and delays
zeroed out.  In particular the dashed or dotted stroke-dasharray of
the line is restored to its configured pattern after the draw-on
transition completes, and the toggle changes nothing but durations and
delays, uniformly for bars, line, points and labels. -/
theorem render_animation_cosmetic (sc : Scales) (cfg : Config) (rows : List Row) :
    renderChart sc { cfg with animationEnabled := false } rows
      = (renderChart sc { cfg with animationEnabled := true } rows).map stripAnim := by
  rw [renderChart_strip sc { cfg with animationEnabled := true } rows]

/-- Whether an element is one of the free-floating instructional text
lines (the only use of plain svg text in the render effect). -/
def isMessageText : Element → Bool
  | .svgText _ _ _ => true
  | _ => false

/-- No element of the list is an instructional text line. -/
def noMessage (l : List Element) : Prop := ∀ e ∈ l, isMessageText e = false

theorem noMessage_nil : noMessage [] := by
  intro e he
  cases he

theorem noMessage_append {a b : List Element} (ha : noMessage a) (hb : noMessage b) :
    noMessage (a ++ b) := by
  intro e he
  rcases List.mem_append.mp he with h | h
  exacts [ha e h, hb e h]

theorem noMessage_ite (c : Prop) [Decidable c] {a b : List Element}
    (ha : noMessage a) (hb : noMessage b) : noMessage (if c then a else b) := by
  by_cases h : c <;> simp only [h, if_true, if_false, ite_true, ite_false] <;> assumption

theorem noMessage_cons {e : Element} {l : List Element} (he : isMessageText e = false)
    (hl : noMessage l) : noMessage (e :: l) := by
  intro x hx
  rcases List.mem_cons.mp hx with rfl | h
  exacts [he, hl x h]

theorem noMessage_map {α : Type} (f : α → Element) (l : List α)
    (h : ∀ a, isMessageText (f a) = false) : noMessage (l.map f) := by
  intro e he
  rcases List.mem_map.mp he with ⟨a, -, rfl⟩
  exact h a

theorem gridBlock_noMessage (cfg : Config) : noMessage (gridBlock cfg) := by
  simp only [gridBlock]
  exact noMessage_ite _
    (noMessage_append (noMessage_ite _ (noMessage_cons rfl noMessage_nil) noMessage_nil)
      (noMessage_ite _ (noMessage_cons rfl noMessage_nil) noMessage_nil))
    noMessage_nil

theorem groupedBarsBlock_noMessage (sc : Scales) (cfg : Config) (cd : List ChartDatum) :
    noMessage (groupedBarsBlock sc cfg cd) := by
  simp only [groupedBarsBlock]
  exact noMessage_append
    (noMessage_append
      (noMessage_append (noMessage_ite _ (noMessage_map _ _ fun a => rfl) noMessage_nil)
        (noMessage_ite _ (noMessage_map _ _ fun a => rfl) noMessage_nil))
      (noMessage_ite _ (noMessage_map _ _ fun a => rfl) noMessage_nil))
    (noMessage_ite _ (noMessage_map _ _ fun a => rfl) noMessage_nil)

theorem stackedBarsBlock_noMessage (sc : Scales) (cfg : Config) (cd : List ChartDatum) :
    noMessage (stackedBarsBlock sc cfg cd) := by
  simp only [stackedBarsBlock]
  exact noMessage_append (noMessage_ite _ (noMessage_map _ _ fun a => rfl) noMessage_nil)
    (noMessage_ite _ (noMessage_map _ _ fun a => rfl) noMessage_nil)

theorem lineBlock_noMessage (sc : Scales) (cfg : Config) (cd : List ChartDatum) :
    noMessage (lineBlock sc cfg cd) := by
  simp only [lineBlock]
  exact noMessage_ite _
    (noMessage_append (noMessage_cons rfl noMessage_nil)
      (noMessage_ite _
        (noMessage_append (noMessage_map _ _ fun a => rfl)
          (noMessage_ite _ (noMessage_map _ _ fun a => rfl) noMessage_nil))
        noMessage_nil))
    noMessage_nil

theorem axesBlock_noMessage (cfg : Config) : noMessage (axesBlock cfg) := by
  simp only [axesBlock]
  exact noMessage_append
    (noMessage_append (noMessage_ite _ (noMessage_cons rfl noMessage_nil) noMessage_nil)
      (noMessage_ite _ (noMessage_cons rfl noMessage_nil) noMessage_nil))
    (noMessage_ite _ (noMessage_cons rfl noMessage_nil) noMessage_nil)

/-- With a dimension and at least one measure mapped, the render is
made of grid, bars, line and axes only: no instructional text. -/
theorem renderChart_noMessage (sc : Scales) (cfg : Config) (rows : List Row)
    (hd : cfg.dimension ≠ "")
    (hm : cfg.bar1Measure ≠ "" ∨ cfg.bar2Measure ≠ "" ∨ cfg.lineMeasure ≠ "") :
    noMessage (renderChart sc cfg rows) := by
  simp only [renderChart]
  rw [if_neg (fun h => h.elim (fun hn => hn hd) (fun hn => hn hm))]
  exact noMessage_append
    (noMessage_append
      (noMessage_append (gridBlock_noMessage cfg)
        (noMessage_ite _ (groupedBarsBlock_noMessage sc cfg _)
          (noMessage_ite _ (stackedBarsBlock_noMessage sc cfg _) noMessage_nil)))
      (lineBlock_noMessage sc cfg _))
    (axesBlock_noMessage cfg)

/-- A concrete scale assembly for instantiating render statements. -/
def scFix : Scales :=
  ⟨800, 600, 720, 520, fun _ => 0, 40, fun _ => 0, 20, fun q => q, fun q => q⟩

/-- A configuration with a measure mapped but no dimension. -/
def cfgNoDim : Config := { bar1Measure := "Sales" }

/-- A configuration with a dimension mapped but no measure. -/
def cfgNoMeas : Config := { dimension := "Region" }

/-- The all-default configuration: neither a dimension nor a measure. -/
def cfgNoneMapped : Config := {}

/-- C7: with non-empty rows the renderer validates the mapping before
drawing anything.  Missing dimension only, missing measures only, or
both missing each produce exactly the two centered instructional text
lines, the first naming exactly the missing roles joined by " and ",
the second "Use the marks card or open Settings to configure"; and
when a dimension and at least one measure are mapped, no
instructional text line appears anywhere in the render. -/
theorem render_missing_mapping_guard (sc : Scales) (cfg : Config) (rows : List Row) :
    (cfg.dimension = "" ∧
        ¬(cfg.bar1Measure = "" ∧ cfg.bar2Measure = "" ∧ cfg.lineMeasure = "") →
      renderChart sc cfg rows =
        [Element.svgText (sc.width / 2) (sc.height / 2 - 10) "Assign a Category dimension",
         Element.svgText (sc.width / 2) (sc.height / 2 + 15)
           "Use the marks card or open Settings to configure"]) ∧
    (cfg.dimension ≠ "" ∧
        cfg.bar1Measure = "" ∧ cfg.bar2Measure = "" ∧ cfg.lineMeasure = "" →
      renderChart sc cfg rows =
        [Element.svgText (sc.width / 2) (sc.height / 2 - 10) "Assign at least one measure",
         Element.svgText (sc.width / 2) (sc.height / 2 + 15)
           "Use the marks card or open Settings to configure"]) ∧
    (cfg.dimension = "" ∧
        cfg.bar1Measure = "" ∧ cfg.bar2Measure = "" ∧ cfg.lineMeasure = "" →
      renderChart sc cfg rows =
        [Element.svgText (sc.width / 2) (sc.height / 2 - 10)
           "Assign a Category dimension and at least one measure",
         Element.svgText (sc.width / 2) (sc.height / 2 + 15)
           "Use the marks card or open Settings to configure"]) ∧
    (cfg.dimension ≠ "" ∧
        (cfg.bar1Measure ≠ "" ∨ cfg.bar2Measure ≠ "" ∨ cfg.lineMeasure ≠ "") →
      ∀ e ∈ renderChart sc cfg rows, isMessageText e = false) := by
  refine ⟨?_, ?_, ?_, ?_⟩
  · rintro ⟨hd, hm⟩
    have hm2 : cfg.bar1Measure ≠ "" ∨ cfg.bar2Measure ≠ "" ∨ cfg.lineMeasure ≠ "" := by
      by_contra hS
      push_neg at hS
      exact hm ⟨hS.1, hS.2.1, hS.2.2⟩
    simp [renderChart, hd, hm2,
      show ("Assign " ++ String.intercalate " and " ["a Category dimension"]
        = "Assign a Category dimension") from by with_unfolding_all decide]
  · rintro ⟨hd, h1, h2, h3⟩
    simp [renderChart, hd, h1, h2, h3,
      show ("Assign " ++ String.intercalate " and " ["at least one measure"]
        = "Assign at least one measure") from by with_unfolding_all decide]
  · rintro ⟨hd, h1, h2, h3⟩
    simp [renderChart, hd, h1, h2, h3,
      show ("Assign " ++ String.intercalate " and "
          ["a Category dimension", "at least one measure"]
        = "Assign a Category dimension and at least one measure")
        from by with_unfolding_all decide]
  · rintro ⟨hd, hm⟩
    exact renderChart_noMessage sc cfg rows hd hm

/-- C7 (witness): at the default configuration with only a bar1
measure mapped, the render is exactly the dimension guidance
message. -/
theorem render_missing_mapping_guard_witness :
    renderChart scFix cfgNoDim []
      = [Element.svgText (scFix.width / 2) (scFix.height / 2 - 10)
           "Assign a Category dimension",
         Element.svgText (scFix.width / 2) (scFix.height / 2 + 15)
           "Use the marks card or open Settings to configure"] :=
  (render_missing_mapping_guard scFix cfgNoDim []).1
    ⟨by with_unfolding_all decide, by with_unfolding_all decide⟩

/-- C10: with null data or an empty row list the render effect draws
nothing at all — the early guard returns before any drawing — and the
component instead shows the "No data available" empty state; the
instructional mapping message can therefore only appear when at least
one row is present. -/
theorem emptyData_guard (sc : Scales) (cfg : Config) (data : Option (List Row)) :
    (data = none →
      renderComboChartEffect sc cfg data = [] ∧
      comboChartEmptyState data = some ("No data available",
        "Add fields to the marks card or check your data source")) ∧
    (data = some [] →
      renderComboChartEffect sc cfg data = [] ∧
      comboChartEmptyState data = some ("No data available",
        "Add fields to the marks card or check your data source")) ∧
    (∀ e ∈ renderComboChartEffect sc cfg data, isMessageText e = true →
      ∃ rows, data = some rows ∧ rows ≠ []) := by
  refine ⟨?_, ?_, ?_⟩
  · rintro rfl
    exact ⟨rfl, rfl⟩
  · rintro rfl
    exact ⟨rfl, rfl⟩
  · intro e he _
    rcases data with _ | rows
    · simp [renderComboChartEffect] at he
    · by_cases h : rows.isEmpty
      · simp [renderComboChartEffect, h] at he
      · exact ⟨rows, rfl, by simpa [List.isEmpty_iff] using h⟩

/-- C10 (witness): the empty row list draws nothing and shows the
empty state, regardless of a fully mapped configuration. -/
theorem emptyData_guard_witness :
    renderComboChartEffect scFix { dimension := "Region", bar1Measure := "Sales" }
        (some []) = [] ∧
    comboChartEmptyState (some ([] : List Row)) = some ("No data available",
      "Add fields to the marks card or check your data source") :=
  (emptyData_guard scFix { dimension := "Region", bar1Measure := "Sales" }
    (some [])).2.1 rfl

end ComboChartSpec
